import Mathlib

/-!
# usr_adc: shared ADC unit manager

A shallow embedding of `src/src/usr_adc.c` (ESP-IDF user ADC module).

* The five file-scope variables of `usr_adc.c` and the state of the platform
  (ESP-IDF driver, calibration scheme, allocator) form a `World`.
* The platform is not part of the repository.  It is a parameter: a `Driver σ`
  gives, for every platform state `σ`, the status each external function
  returns, what it stores through its output pointer, and the next platform
  state.  Nothing is assumed about it.
* Every call into the driver is appended to `World.trace`, so that statements
  about which driver functions were called can be expressed.
* Pointers are natural numbers, `0` being `NULL`.  A handle is the value of the
  `struct usr_adc_handle_s` it points to (`none` is the `NULL` handle); the
  module never writes a handle after `usr_adc_init` returned it.  The two read
  functions are also given in pointer form over a `HandleMemory`
  (`usr_adc_read_raw_mem`, `usr_adc_read_voltage_mem`), with the handle memory
  after the call as part of the result.
* `g_adc_ref_count` is a C `int`; it is an `Int` here, the range in which C
  defines `++` and `--`.
-/

namespace UsrAdc

/-! ## Platform types and constants (esp_err.h, hal/adc_types.h) -/

abbrev esp_err_t := Int

def ESP_OK : esp_err_t := 0
def ESP_ERR_NO_MEM : esp_err_t := 0x101
def ESP_ERR_INVALID_ARG : esp_err_t := 0x102
def ESP_ERR_INVALID_STATE : esp_err_t := 0x103
def ESP_ERR_NOT_FOUND : esp_err_t := 0x105

abbrev adc_unit_t := Int

def ADC_UNIT_1 : adc_unit_t := 0
def ADC_UNIT_2 : adc_unit_t := 1

/-! ## Data model (usr_adc.h, usr_adc.c lines 12-29) -/

/-- Channel configuration, `usr_adc_channel_config_t` of usr_adc.h. -/
structure usr_adc_channel_config_t where
  unit : adc_unit_t
  channel : Int
  atten : Int
  bitwidth : Int
deriving DecidableEq, Repr

/-- Handle contents, `struct usr_adc_handle_s`.  The two arrays are lists; the
two counts are the `uint8_t` fields. -/
structure usr_adc_handle_s where
  uses_adc1 : Bool
  uses_adc2 : Bool
  cali_handles : List Nat
  cali_handle_num : Nat
  channel_configs : List usr_adc_channel_config_t
  channel_num : Nat
deriving DecidableEq, Repr

/-- One call into the platform driver, with the arguments the module passed. -/
inductive DriverCall where
  | new_unit (unit_id : adc_unit_t)
  | config_channel (unit_handle : Nat) (channel atten bitwidth : Int)
  | cali_create_scheme (unit_id : adc_unit_t) (atten bitwidth : Int)
  | cali_delete_scheme (cali : Nat)
  | del_unit (unit_handle : Nat)
  | read (unit_handle : Nat) (channel : Int)
  | raw_to_voltage (cali : Nat) (raw : Int)
deriving DecidableEq, Repr

/-- The platform the module is linked against.  A function with an output
pointer returns, next to its status, `some v` when it stores `v` through the
pointer and `none` when it stores nothing.  `adc_cali_create_scheme` and
`adc_cali_delete_scheme` stand for the curve-fitting or line-fitting pair the
build selects. -/
structure Driver (σ : Type) where
  alloc : σ → Bool × σ
  adc_oneshot_new_unit : σ → adc_unit_t → esp_err_t × Option Nat × σ
  adc_oneshot_config_channel : σ → Nat → Int → Int → Int → esp_err_t × σ
  adc_cali_create_scheme : σ → adc_unit_t → Int → Int → esp_err_t × Option Nat × σ
  adc_cali_delete_scheme : σ → Nat → esp_err_t × σ
  adc_oneshot_del_unit : σ → Nat → esp_err_t × σ
  adc_oneshot_read : σ → Nat → Int → esp_err_t × Option Int × σ
  adc_cali_raw_to_voltage : σ → Nat → Int → esp_err_t × Option Int × σ

/-- File-scope state of usr_adc.c (lines 13-17), the platform state and the
log of driver calls. -/
structure World (σ : Type) where
  g_adc1_initialized : Bool
  g_adc2_initialized : Bool
  g_adc1_handle : Nat
  g_adc2_handle : Nat
  g_adc_ref_count : Int
  env : σ
  trace : List DriverCall

/-! ## usr_adc_init (usr_adc.c lines 31-160) -/

/-- Lines 37-61: the three allocations (handle, configuration array,
calibration handle array); the first failure ends the sequence. -/
def alloc_handle {σ : Type} (d : Driver σ) (env : σ) : Bool × σ :=
  let a1 := d.alloc env
  if a1.1 = false then (false, a1.2) else
  let a2 := d.alloc a1.2
  if a2.1 = false then (false, a2.2) else
  d.alloc a2.2

/-- Lines 64-76: the scan that sets `need_adc1`/`uses_adc1` and
`need_adc2`/`uses_adc2`; the pair is (unit 1, unit 2). -/
def scan_units : List usr_adc_channel_config_t → Bool × Bool → Bool × Bool
  | [], need => need
  | c :: rest, need =>
    if c.unit = ADC_UNIT_1 then scan_units rest (true, need.2)
    else if c.unit = ADC_UNIT_2 then scan_units rest (need.1, true)
    else scan_units rest need

/-- Lines 78-95: create ADC1 when needed and not yet initialized.  The status
is `ESP_OK` when the function goes on. -/
def init_adc1 {σ : Type} (d : Driver σ) (need_adc1 : Bool) (w : World σ) :
    esp_err_t × World σ :=
  if need_adc1 = true ∧ w.g_adc1_initialized = false then
    let r := d.adc_oneshot_new_unit w.env ADC_UNIT_1
    let w1 : World σ :=
      { w with
        g_adc1_handle := r.2.1.getD w.g_adc1_handle
        env := r.2.2
        trace := w.trace ++ [DriverCall.new_unit ADC_UNIT_1] }
    if r.1 ≠ ESP_OK then (r.1, w1)
    else (ESP_OK, { w1 with g_adc1_initialized := true })
  else (ESP_OK, w)

/-- Lines 97-114: create ADC2 when needed and not yet initialized. -/
def init_adc2 {σ : Type} (d : Driver σ) (need_adc2 : Bool) (w : World σ) :
    esp_err_t × World σ :=
  if need_adc2 = true ∧ w.g_adc2_initialized = false then
    let r := d.adc_oneshot_new_unit w.env ADC_UNIT_2
    let w1 : World σ :=
      { w with
        g_adc2_handle := r.2.1.getD w.g_adc2_handle
        env := r.2.2
        trace := w.trace ++ [DriverCall.new_unit ADC_UNIT_2] }
    if r.1 ≠ ESP_OK then (r.1, w1)
    else (ESP_OK, { w1 with g_adc2_initialized := true })
  else (ESP_OK, w)

/-- Lines 117-152: the channel loop.  `calis` is the part of `cali_handles`
written so far (entries `0 .. i-1`), `num` is `cali_handle_num`.  The local
`cali_handle` starts as `NULL` and holds what the scheme creation stored. -/
def config_channels {σ : Type} (d : Driver σ) :
    List usr_adc_channel_config_t → World σ → List Nat → Nat → World σ × List Nat × Nat
  | [], w, calis, num => (w, calis, num)
  | c :: rest, w, calis, num =>
    let unit_handle := if c.unit = ADC_UNIT_1 then w.g_adc1_handle else w.g_adc2_handle
    let r1 := d.adc_oneshot_config_channel w.env unit_handle c.channel c.atten c.bitwidth
    let r2 := d.adc_cali_create_scheme r1.2 c.unit c.atten c.bitwidth
    let cali_handle := r2.2.1.getD 0
    let w1 : World σ :=
      { w with
        env := r2.2.2
        trace := w.trace ++
          [DriverCall.config_channel unit_handle c.channel c.atten c.bitwidth,
           DriverCall.cali_create_scheme c.unit c.atten c.bitwidth] }
    config_channels d rest w1 (calis ++ [cali_handle]) ((num + 1) % 256)

/-- The function `usr_adc_init`.  `channel_configs` is `none` for a `NULL` array;
the entries read are the first `channel_num` ones (C defines the call only for
an array of at least `channel_num` entries, and `channel_num` is a `uint8_t`,
below 256).  `handle_nonnull` tells
whether the output pointer is non-`NULL`.  The result is the status, the handle
stored through the output pointer (`none`: nothing stored) and the new world. -/
def usr_adc_init {σ : Type} (d : Driver σ) (w : World σ)
    (channel_configs : Option (List usr_adc_channel_config_t)) (channel_num : Nat)
    (handle_nonnull : Bool) : esp_err_t × Option usr_adc_handle_s × World σ :=
  match channel_configs with
  | none => (ESP_ERR_INVALID_ARG, none, w)
  | some cfgs =>
    if channel_num = 0 ∨ handle_nonnull = false then (ESP_ERR_INVALID_ARG, none, w) else
    let a := alloc_handle d w.env
    let w0 : World σ := { w with env := a.2 }
    if a.1 = false then (ESP_ERR_NO_MEM, none, w0) else
    let cs := cfgs.take channel_num
    let need := scan_units cs (false, false)
    let r1 := init_adc1 d need.1 w0
    if r1.1 ≠ ESP_OK then (r1.1, none, r1.2) else
    let r2 := init_adc2 d need.2 r1.2
    if r2.1 ≠ ESP_OK then (r2.1, none, r2.2) else
    let r3 := config_channels d cs r2.2 [] 0
    let adc_handle : usr_adc_handle_s :=
      { uses_adc1 := need.1
        uses_adc2 := need.2
        cali_handles := r3.2.1
        cali_handle_num := r3.2.2
        channel_configs := cs
        channel_num := channel_num }
    (ESP_OK, some adc_handle,
      { r3.1 with g_adc_ref_count := r3.1.g_adc_ref_count + 1 })

/-! ## usr_adc_read_raw (lines 162-187) and usr_adc_read_voltage (lines 189-219) -/

/-- The function `usr_adc_read_raw`.  The result is the status, the sample stored
through `out_raw` (`none`: nothing stored) and the new world. -/
def usr_adc_read_raw {σ : Type} (d : Driver σ) (w : World σ)
    (handle : Option usr_adc_handle_s) (unit : adc_unit_t) (channel : Int)
    (out_raw_nonnull : Bool) : esp_err_t × Option Int × World σ :=
  match handle with
  | none => (ESP_ERR_INVALID_ARG, none, w)
  | some h =>
    if out_raw_nonnull = false then (ESP_ERR_INVALID_ARG, none, w) else
    if unit = ADC_UNIT_1 then
      if w.g_adc1_initialized = false ∨ h.uses_adc1 = false then
        (ESP_ERR_INVALID_STATE, none, w)
      else
        let r := d.adc_oneshot_read w.env w.g_adc1_handle channel
        (r.1, r.2.1,
          { w with env := r.2.2
                   trace := w.trace ++ [DriverCall.read w.g_adc1_handle channel] })
    else if unit = ADC_UNIT_2 then
      if w.g_adc2_initialized = false ∨ h.uses_adc2 = false then
        (ESP_ERR_INVALID_STATE, none, w)
      else
        let r := d.adc_oneshot_read w.env w.g_adc2_handle channel
        (r.1, r.2.1,
          { w with env := r.2.2
                   trace := w.trace ++ [DriverCall.read w.g_adc2_handle channel] })
    else (ESP_ERR_INVALID_ARG, none, w)

/-- Lines 203-210: the scan for the calibration handle of `(unit, channel)`;
`i` is the loop index, the list holds the entries `i ..` of `channel_configs`.
The result is `0` (`NULL`) when no entry matches. -/
def find_cali_handle (cali_handles : List Nat) (unit : adc_unit_t) (channel : Int) :
    List usr_adc_channel_config_t → Nat → Nat
  | [], _ => 0
  | c :: rest, i =>
    if c.unit = unit ∧ c.channel = channel then cali_handles.getD i 0
    else find_cali_handle cali_handles unit channel rest (i + 1)

/-- The function `usr_adc_read_voltage`.  `raw_value` is the content of the
uninitialized local `raw_value`, which is read only if the driver reports
`ESP_OK` without storing a sample.  The result is the status, the voltage stored
through `out_voltage` (`none`: nothing stored) and the new world. -/
def usr_adc_read_voltage {σ : Type} (d : Driver σ) (w : World σ)
    (handle : Option usr_adc_handle_s) (unit : adc_unit_t) (channel : Int)
    (out_voltage_nonnull : Bool) (raw_value : Int) : esp_err_t × Option Int × World σ :=
  match handle with
  | none => (ESP_ERR_INVALID_ARG, none, w)
  | some h =>
    if out_voltage_nonnull = false then (ESP_ERR_INVALID_ARG, none, w) else
    let r := usr_adc_read_raw d w (some h) unit channel true
    if r.1 ≠ ESP_OK then (r.1, none, r.2.2) else
    let raw := r.2.1.getD raw_value
    let cali_handle :=
      find_cali_handle h.cali_handles unit channel (h.channel_configs.take h.channel_num) 0
    if cali_handle = 0 then (ESP_ERR_NOT_FOUND, none, r.2.2) else
    let v := d.adc_cali_raw_to_voltage r.2.2.env cali_handle raw
    (v.1, v.2.1,
      { r.2.2 with env := v.2.2
                   trace := r.2.2.trace ++ [DriverCall.raw_to_voltage cali_handle raw] })

/-! ## usr_adc_deinit (lines 221-267) -/

/-- Lines 228-236: delete every non-`NULL` calibration handle among the first
`cali_handle_num` entries. -/
def delete_cali_handles {σ : Type} (d : Driver σ) : List Nat → World σ → World σ
  | [], w => w
  | c :: rest, w =>
    if c ≠ 0 then
      delete_cali_handles d rest
        { w with env := (d.adc_cali_delete_scheme w.env c).2
                 trace := w.trace ++ [DriverCall.cali_delete_scheme c] }
    else delete_cali_handles d rest w

/-- Lines 245-250: tear ADC1 down when it is initialized and the handle uses it. -/
def deinit_adc1 {σ : Type} (d : Driver σ) (h : usr_adc_handle_s) (w : World σ) : World σ :=
  if w.g_adc1_initialized = true ∧ h.uses_adc1 = true then
    { w with
      g_adc1_initialized := false
      g_adc1_handle := 0
      env := (d.adc_oneshot_del_unit w.env w.g_adc1_handle).2
      trace := w.trace ++ [DriverCall.del_unit w.g_adc1_handle] }
  else w

/-- Lines 252-257: tear ADC2 down when it is initialized and the handle uses it. -/
def deinit_adc2 {σ : Type} (d : Driver σ) (h : usr_adc_handle_s) (w : World σ) : World σ :=
  if w.g_adc2_initialized = true ∧ h.uses_adc2 = true then
    { w with
      g_adc2_initialized := false
      g_adc2_handle := 0
      env := (d.adc_oneshot_del_unit w.env w.g_adc2_handle).2
      trace := w.trace ++ [DriverCall.del_unit w.g_adc2_handle] }
  else w

/-- The function `usr_adc_deinit`: status and new world. -/
def usr_adc_deinit {σ : Type} (d : Driver σ) (w : World σ)
    (handle : Option usr_adc_handle_s) : esp_err_t × World σ :=
  match handle with
  | none => (ESP_ERR_INVALID_ARG, w)
  | some h =>
    let w1 := delete_cali_handles d (h.cali_handles.take h.cali_handle_num) w
    let w2 : World σ := { w1 with g_adc_ref_count := w1.g_adc_ref_count - 1 }
    if w2.g_adc_ref_count = 0 then (ESP_OK, deinit_adc2 d h (deinit_adc1 d h w2))
    else (ESP_OK, w2)

/-! ## Call sequences -/

/-- The module state together with the handles that `usr_adc_init` returned and
that were not yet passed to `usr_adc_deinit`. -/
structure Sys (σ : Type) where
  w : World σ
  live : List usr_adc_handle_s

/-- A call made by a consumer: `usr_adc_init` with any arguments, or
`usr_adc_deinit` on the live handle at position `i`. -/
inductive Op where
  | init (channel_configs : Option (List usr_adc_channel_config_t)) (channel_num : Nat)
      (handle_nonnull : Bool)
  | deinit (i : Nat)
deriving Repr

/-- State at program start: the initializers of lines 13-17. -/
def World.initial {σ : Type} (env : σ) : World σ :=
  { g_adc1_initialized := false
    g_adc2_initialized := false
    g_adc1_handle := 0
    g_adc2_handle := 0
    g_adc_ref_count := 0
    env := env
    trace := [] }

def Sys.initial {σ : Type} (env : σ) : Sys σ :=
  { w := World.initial env, live := [] }

/-- One consumer call.  A successful `usr_adc_init` makes its handle live, a
`usr_adc_deinit` removes the handle it released; `deinit i` with no live handle
at `i` is not a call and changes nothing. -/
def step {σ : Type} (d : Driver σ) (s : Sys σ) : Op → Sys σ
  | Op.init channel_configs channel_num handle_nonnull =>
    let r := usr_adc_init d s.w channel_configs channel_num handle_nonnull
    { w := r.2.2
      live := match r.2.1 with
        | some h => s.live ++ [h]
        | none => s.live }
  | Op.deinit i =>
    match s.live[i]? with
    | some h => { w := (usr_adc_deinit d s.w (some h)).2, live := s.live.eraseIdx i }
    | none => s

def run {σ : Type} (d : Driver σ) (s : Sys σ) (ops : List Op) : Sys σ :=
  ops.foldl (step d) s

/-! ## Test platforms -/

/-- A platform on which every call succeeds: unit creation stores handle `100`
plus the unit number, calibration creation stores `7`, a read stores `1234`,
the conversion stores twice the raw value. -/
def okDriver : Driver Unit where
  alloc := fun e => (true, e)
  adc_oneshot_new_unit := fun e u => (ESP_OK, some (100 + u.toNat), e)
  adc_oneshot_config_channel := fun e _ _ _ _ => (ESP_OK, e)
  adc_cali_create_scheme := fun e _ _ _ => (ESP_OK, some 7, e)
  adc_cali_delete_scheme := fun e _ => (ESP_OK, e)
  adc_oneshot_del_unit := fun e _ => (ESP_OK, e)
  adc_oneshot_read := fun e _ _ => (ESP_OK, some 1234, e)
  adc_cali_raw_to_voltage := fun e _ raw => (ESP_OK, some (2 * raw), e)

/-- The generic failure status `ESP_FAIL` of esp_err.h. -/
def ESP_FAIL : esp_err_t := -1

/-- As `okDriver`, but the creation of ADC1 fails with `ESP_FAIL`, storing
nothing. -/
def adc1FailDriver : Driver Unit :=
  { okDriver with
    adc_oneshot_new_unit := fun e u =>
      if u = ADC_UNIT_1 then (ESP_FAIL, none, e) else (ESP_OK, some (100 + u.toNat), e) }

/-- As `okDriver`, but the creation of ADC2 fails with `ESP_FAIL`, storing
nothing. -/
def adc2FailDriver : Driver Unit :=
  { okDriver with
    adc_oneshot_new_unit := fun e u =>
      if u = ADC_UNIT_2 then (ESP_FAIL, none, e) else (ESP_OK, some (100 + u.toNat), e) }

/-- Number of unit-creation calls for unit `u` in a driver call log. -/
def new_unit_calls (u : adc_unit_t) (t : List DriverCall) : Nat :=
  t.count (DriverCall.new_unit u)

/-- Whether some entry of a configuration list selects unit `u`. -/
def selects_unit (u : adc_unit_t) (cs : List usr_adc_channel_config_t) : Bool :=
  cs.any (fun c => decide (c.unit = u))

/-- The unit handle of a unit-destruction call, `none` for any other call. -/
def del_unit_arg : DriverCall → Option Nat
  | DriverCall.del_unit unit_handle => some unit_handle
  | _ => none

/-- The unit handles passed to the driver's unit destruction, in call order. -/
def del_unit_log (t : List DriverCall) : List Nat :=
  t.filterMap del_unit_arg

/-- Whether a driver call is a raw-to-voltage conversion. -/
def is_raw_to_voltage : DriverCall → Bool
  | DriverCall.raw_to_voltage _ _ => true
  | _ => false

/-- Number of raw-to-voltage conversions in a driver call log. -/
def raw_to_voltage_calls (t : List DriverCall) : Nat :=
  t.countP is_raw_to_voltage

/-- As `okDriver`, but the raw-to-voltage conversion reports
`ESP_ERR_NOT_FOUND` and stores nothing. -/
def conversionNotFoundDriver : Driver Unit :=
  { okDriver with adc_cali_raw_to_voltage := fun e _ _ => (ESP_ERR_NOT_FOUND, none, e) }

/-- No calibration context exists for `(unit, channel)` within the handle: no
configuration entry of the handle has exactly that unit and channel, or the
first such entry has an absent (`NULL`) calibration context. -/
def no_cali_context (h : usr_adc_handle_s) (unit : adc_unit_t) (channel : Int) : Prop :=
  (∀ c ∈ h.channel_configs.take h.channel_num, ¬ (c.unit = unit ∧ c.channel = channel)) ∨
  (∃ i c, (h.channel_configs.take h.channel_num)[i]? = some c ∧
    (c.unit = unit ∧ c.channel = channel) ∧
    (∀ j c', j < i → (h.channel_configs.take h.channel_num)[j]? = some c' →
      ¬ (c'.unit = unit ∧ c'.channel = channel)) ∧
    h.cali_handles.getD i 0 = 0)

/-- As `okDriver`, but the calibration scheme creation reports `ESP_FAIL` and
nevertheless stores the handle `9`. -/
def caliFailStoresDriver : Driver Unit :=
  { okDriver with adc_cali_create_scheme := fun e _ _ _ => (ESP_FAIL, some 9, e) }

/-- As `okDriver`, but channel configuration and calibration scheme creation
both report `ESP_FAIL`, the creation storing nothing. -/
def channelFailDriver : Driver Unit :=
  { okDriver with
    adc_oneshot_config_channel := fun e _ _ _ _ => (ESP_FAIL, e)
    adc_cali_create_scheme := fun e _ _ _ => (ESP_FAIL, none, e) }

/-- The driver calls of the channel loop (lines 117-152) for a list of entries:
for each entry, in order, one channel configuration on the stored handle of its
unit and one calibration scheme creation. -/
def channel_calls (g_adc1_handle g_adc2_handle : Nat) :
    List usr_adc_channel_config_t → List DriverCall
  | [] => []
  | c :: rest =>
    DriverCall.config_channel (if c.unit = ADC_UNIT_1 then g_adc1_handle else g_adc2_handle)
        c.channel c.atten c.bitwidth ::
      DriverCall.cali_create_scheme c.unit c.atten c.bitwidth ::
      channel_calls g_adc1_handle g_adc2_handle rest

/-- The answers of the driver to the calibration scheme creations of the
channel loop, in order: status and stored handle. -/
def cali_answers {σ : Type} (d : Driver σ) (g_adc1_handle g_adc2_handle : Nat) :
    List usr_adc_channel_config_t → σ → List (esp_err_t × Option Nat)
  | [], _ => []
  | c :: rest, env =>
    let unit_handle := if c.unit = ADC_UNIT_1 then g_adc1_handle else g_adc2_handle
    let r1 := d.adc_oneshot_config_channel env unit_handle c.channel c.atten c.bitwidth
    let r2 := d.adc_cali_create_scheme r1.2 c.unit c.atten c.bitwidth
    (r2.1, r2.2.1) :: cali_answers d g_adc1_handle g_adc2_handle rest r2.2.2

/-- The world after lines 37-114 of a `usr_adc_init` call with valid arguments:
allocations done, ADC1 and then ADC2 created where needed. -/
def units_phase {σ : Type} (d : Driver σ) (w : World σ)
    (cs : List usr_adc_channel_config_t) (n : Nat) : World σ :=
  (init_adc2 d (scan_units (cs.take n) (false, false)).2
    (init_adc1 d (scan_units (cs.take n) (false, false)).1
      { w with env := (alloc_handle d w.env).2 }).2).2

/-- Every unit used by a live handle is marked initialized, and the counter is
the number of live handles. -/
def LiveUnitsInitialized {σ : Type} (s : Sys σ) : Prop :=
  s.w.g_adc_ref_count = s.live.length ∧
  ∀ h ∈ s.live,
    (h.uses_adc1 = true → s.w.g_adc1_initialized = true) ∧
    (h.uses_adc2 = true → s.w.g_adc2_initialized = true)

/-- Two consumers, the first on ADC1 and the second on ADC2, which then release
their handles in the same order. -/
def two_consumers_ops : List Op :=
  [Op.init (some [⟨ADC_UNIT_1, 0, 3, 12⟩]) 1 true,
   Op.init (some [⟨ADC_UNIT_2, 0, 3, 12⟩]) 1 true,
   Op.deinit 0,
   Op.deinit 0]

/-- The physical unit a selector resolves to, as seen from a handle: whether the
unit is marked initialized, whether the handle uses it, and its stored driver
handle; `none` for a selector that is neither ADC1 nor ADC2. -/
def resolve_unit {σ : Type} (w : World σ) (h : usr_adc_handle_s) (unit : adc_unit_t) :
    Option (Bool × Bool × Nat) :=
  if unit = ADC_UNIT_1 then some (w.g_adc1_initialized, h.uses_adc1, w.g_adc1_handle)
  else if unit = ADC_UNIT_2 then some (w.g_adc2_initialized, h.uses_adc2, w.g_adc2_handle)
  else none

/-- Reference definition of the raw read, written from the specification:
`ESP_ERR_INVALID_ARG` if the handle or the output is `NULL`; otherwise, for ADC1
or ADC2, `ESP_ERR_INVALID_STATE` if the unit is not initialized or the handle
does not use it, else the status and sample of one driver read on the stored
handle of the unit with the given channel; otherwise `ESP_ERR_INVALID_ARG`. -/
def read_raw_reference {σ : Type} (d : Driver σ) (w : World σ)
    (handle : Option usr_adc_handle_s) (unit : adc_unit_t) (channel : Int)
    (out_raw_nonnull : Bool) : esp_err_t × Option Int × World σ :=
  match handle, out_raw_nonnull with
  | some h, true =>
    match resolve_unit w h unit with
    | none => (ESP_ERR_INVALID_ARG, none, w)
    | some (initialized, used, unit_handle) =>
      if initialized && used then
        ((d.adc_oneshot_read w.env unit_handle channel).1,
         (d.adc_oneshot_read w.env unit_handle channel).2.1,
         { w with env := (d.adc_oneshot_read w.env unit_handle channel).2.2
                  trace := w.trace ++ [DriverCall.read unit_handle channel] })
      else (ESP_ERR_INVALID_STATE, none, w)
  | _, _ => (ESP_ERR_INVALID_ARG, none, w)

/-- The assumption on the driver's unit creation: when it reports `ESP_OK` it
has stored a non-`NULL` unit handle, and when it reports a failure it has stored
nothing. -/
def UnitCreationContract {σ : Type} (d : Driver σ) : Prop :=
  ∀ (env : σ) (u : adc_unit_t),
    ((d.adc_oneshot_new_unit env u).1 = ESP_OK →
      ∃ p, (d.adc_oneshot_new_unit env u).2.1 = some p ∧ p ≠ 0) ∧
    ((d.adc_oneshot_new_unit env u).1 ≠ ESP_OK → (d.adc_oneshot_new_unit env u).2.1 = none)

/-- Each unit's initialized flag is true exactly when its stored driver handle
is not `NULL`. -/
def FlagsMatchHandles {σ : Type} (w : World σ) : Prop :=
  (w.g_adc1_initialized = true ↔ w.g_adc1_handle ≠ 0) ∧
  (w.g_adc2_initialized = true ↔ w.g_adc2_handle ≠ 0)

/-- The calibration handle of a scheme-deletion call, `none` for any other call. -/
def cali_delete_arg : DriverCall → Option Nat
  | DriverCall.cali_delete_scheme cali => some cali
  | _ => none

/-- The calibration handles passed to the scheme deletion, in call order. -/
def cali_delete_log (t : List DriverCall) : List Nat :=
  t.filterMap cali_delete_arg

/-- As `okDriver`, but the single-sample read reports `ESP_ERR_INVALID_STATE`
and stores nothing. -/
def readInvalidStateDriver : Driver Unit :=
  { okDriver with adc_oneshot_read := fun e _ _ => (ESP_ERR_INVALID_STATE, none, e) }

/-- Handle memory: the `struct usr_adc_handle_s` object found at each address.
A `usr_adc_handle_t` is an address, `0` being `NULL`. -/
abbrev HandleMemory := Nat → usr_adc_handle_s

/-- The handle a pointer denotes: `none` for `NULL`, else the object at the
address. -/
def deref_handle (mem : HandleMemory) (handle : Nat) : Option usr_adc_handle_s :=
  if handle = 0 then none else some (mem handle)

/-- The function `usr_adc_read_raw` (lines 162-187) with the handle as a pointer
into handle memory: `handle->uses_adc1` and `handle->uses_adc2` are reads of the
object at `handle`.  The result is the status, the sample stored through
`out_raw`, the new world and the handle memory after the call. -/
def usr_adc_read_raw_mem {σ : Type} (d : Driver σ) (w : World σ) (mem : HandleMemory)
    (handle : Nat) (unit : adc_unit_t) (channel : Int) (out_raw_nonnull : Bool) :
    esp_err_t × Option Int × World σ × HandleMemory :=
  if handle = 0 ∨ out_raw_nonnull = false then (ESP_ERR_INVALID_ARG, none, w, mem) else
  if unit = ADC_UNIT_1 then
    if w.g_adc1_initialized = false ∨ (mem handle).uses_adc1 = false then
      (ESP_ERR_INVALID_STATE, none, w, mem)
    else
      let r := d.adc_oneshot_read w.env w.g_adc1_handle channel
      (r.1, r.2.1,
        { w with env := r.2.2
                 trace := w.trace ++ [DriverCall.read w.g_adc1_handle channel] },
        mem)
  else if unit = ADC_UNIT_2 then
    if w.g_adc2_initialized = false ∨ (mem handle).uses_adc2 = false then
      (ESP_ERR_INVALID_STATE, none, w, mem)
    else
      let r := d.adc_oneshot_read w.env w.g_adc2_handle channel
      (r.1, r.2.1,
        { w with env := r.2.2
                 trace := w.trace ++ [DriverCall.read w.g_adc2_handle channel] },
        mem)
  else (ESP_ERR_INVALID_ARG, none, w, mem)

/-- The function `usr_adc_read_voltage` (lines 189-219) with the handle as a
pointer into handle memory.  The raw read is `usr_adc_read_raw_mem`; the lookup
of lines 203-210 reads `channel_num`, `channel_configs` and `cali_handles` of
the object at `handle` in the memory the raw read left.  `raw_value` is the
content of the uninitialized local.  The last component of the result is the
handle memory after the call. -/
def usr_adc_read_voltage_mem {σ : Type} (d : Driver σ) (w : World σ) (mem : HandleMemory)
    (handle : Nat) (unit : adc_unit_t) (channel : Int) (out_voltage_nonnull : Bool)
    (raw_value : Int) : esp_err_t × Option Int × World σ × HandleMemory :=
  if handle = 0 ∨ out_voltage_nonnull = false then (ESP_ERR_INVALID_ARG, none, w, mem) else
  let r := usr_adc_read_raw_mem d w mem handle unit channel true
  if r.1 ≠ ESP_OK then (r.1, none, r.2.2.1, r.2.2.2) else
  let raw := r.2.1.getD raw_value
  let cali_handle :=
    find_cali_handle (r.2.2.2 handle).cali_handles unit channel
      ((r.2.2.2 handle).channel_configs.take (r.2.2.2 handle).channel_num) 0
  if cali_handle = 0 then (ESP_ERR_NOT_FOUND, none, r.2.2.1, r.2.2.2) else
  let v := d.adc_cali_raw_to_voltage r.2.2.1.env cali_handle raw
  (v.1, v.2.1,
    { r.2.2.1 with env := v.2.2
                   trace := r.2.2.1.trace ++ [DriverCall.raw_to_voltage cali_handle raw] },
    r.2.2.2)

/-! ## Frame lemmas for the phases of usr_adc_init and usr_adc_deinit -/

theorem esp_ok_ne_invalid_arg : ESP_ERR_INVALID_ARG ≠ ESP_OK := by decide
theorem esp_ok_ne_no_mem : ESP_ERR_NO_MEM ≠ ESP_OK := by decide
theorem esp_ok_ne_invalid_state : ESP_ERR_INVALID_STATE ≠ ESP_OK := by decide
theorem esp_ok_ne_not_found : ESP_ERR_NOT_FOUND ≠ ESP_OK := by decide

theorem scan_units_fst (cs : List usr_adc_channel_config_t) (need : Bool × Bool) :
    (scan_units cs need).1 = (need.1 || cs.any (fun c => decide (c.unit = ADC_UNIT_1))) := by
  induction cs generalizing need with
  | nil => simp [scan_units]
  | cons c rest ih =>
    by_cases h1 : c.unit = ADC_UNIT_1
    · simp [scan_units, h1, ih]
    · by_cases h2 : c.unit = ADC_UNIT_2
      · have h3 : ¬ ADC_UNIT_2 = ADC_UNIT_1 := by decide
        simp [scan_units, h2, h3, ih]
      · simp [scan_units, h1, h2, ih]

theorem scan_units_snd (cs : List usr_adc_channel_config_t) (need : Bool × Bool) :
    (scan_units cs need).2 = (need.2 || cs.any (fun c => decide (c.unit = ADC_UNIT_2))) := by
  induction cs generalizing need with
  | nil => simp [scan_units]
  | cons c rest ih =>
    by_cases h1 : c.unit = ADC_UNIT_1
    · have h2 : ¬ ADC_UNIT_1 = ADC_UNIT_2 := by decide
      simp [scan_units, h1, h2, ih]
    · by_cases h2 : c.unit = ADC_UNIT_2
      · have h3 : ¬ ADC_UNIT_2 = ADC_UNIT_1 := by decide
        simp [scan_units, h2, h3, ih]
      · simp [scan_units, h1, h2, ih]

theorem scan_units_selects (cs : List usr_adc_channel_config_t) :
    scan_units cs (false, false) = (selects_unit ADC_UNIT_1 cs, selects_unit ADC_UNIT_2 cs) := by
  apply Prod.ext
  · simp [scan_units_fst, selects_unit]
  · simp [scan_units_snd, selects_unit]

/-- The scan of lines 203-210 yields `NULL` exactly when no entry matches
`(unit, channel)` or the first matching entry, at index `i`, has a `NULL`
calibration handle at index `k + i`. -/
theorem find_cali_handle_eq_zero_iff (calis : List Nat) (u : adc_unit_t) (ch : Int)
    (cs : List usr_adc_channel_config_t) (k : Nat) :
    find_cali_handle calis u ch cs k = 0 ↔
      (∀ c ∈ cs, ¬ (c.unit = u ∧ c.channel = ch)) ∨
      (∃ i c, cs[i]? = some c ∧ (c.unit = u ∧ c.channel = ch) ∧
        (∀ j c', j < i → cs[j]? = some c' → ¬ (c'.unit = u ∧ c'.channel = ch)) ∧
        calis.getD (k + i) 0 = 0) := by
  induction cs generalizing k with
  | nil => simp [find_cali_handle]
  | cons c rest ih =>
    by_cases hm : c.unit = u ∧ c.channel = ch
    · simp only [find_cali_handle, if_pos hm]
      constructor
      · intro h0
        right
        exact ⟨0, c, by simp, hm, fun j c' hj => absurd hj (Nat.not_lt_zero j), by simpa using h0⟩
      · rintro (hall | ⟨i, c', hi, _, hfirst, hz⟩)
        · exact absurd hm (hall c (List.mem_cons_self c rest))
        · cases i with
          | zero => simpa using hz
          | succ i => exact absurd hm (hfirst 0 c (Nat.succ_pos i) (by simp))
    · simp only [find_cali_handle, if_neg hm]
      rw [ih (k + 1)]
      constructor
      · rintro (hall | ⟨i, c', hi, hmatch, hfirst, hz⟩)
        · left
          intro x hx
          rcases List.mem_cons.mp hx with rfl | hx
          · exact hm
          · exact hall x hx
        · right
          refine ⟨i + 1, c', by simpa using hi, hmatch, ?_, by rw [← hz]; congr 1; omega⟩
          intro j c'' hj hjc
          cases j with
          | zero =>
            have : c = c'' := by simpa using hjc
            rw [← this]; exact hm
          | succ j => exact hfirst j c'' (by omega) (by simpa using hjc)
      · rintro (hall | ⟨i, c', hi, hmatch, hfirst, hz⟩)
        · left
          intro x hx
          exact hall x (List.mem_cons_of_mem c hx)
        · cases i with
          | zero =>
            have : c = c' := by simpa using hi
            rw [← this] at hmatch
            exact absurd hmatch hm
          | succ i =>
            right
            refine ⟨i, c', by simpa using hi, hmatch, ?_, by rw [← hz]; congr 1; omega⟩
            intro j c'' hj hjc
            exact hfirst (j + 1) c'' (by omega) (by simpa using hjc)

/-- The scan of lines 203-210 yields the calibration handle stored at the index
of the first entry matching `(unit, channel)`. -/
theorem find_cali_handle_first_match (calis : List Nat) (u : adc_unit_t) (ch : Int)
    (cs : List usr_adc_channel_config_t) (k i : Nat) (c : usr_adc_channel_config_t)
    (hi : cs[i]? = some c) (hm : c.unit = u ∧ c.channel = ch)
    (hfirst : ∀ j c', j < i → cs[j]? = some c' → ¬ (c'.unit = u ∧ c'.channel = ch)) :
    find_cali_handle calis u ch cs k = calis.getD (k + i) 0 := by
  induction cs generalizing k i with
  | nil => simp at hi
  | cons x rest ih =>
    cases i with
    | zero =>
      have hx : x = c := by simpa using hi
      subst hx
      simp [find_cali_handle, hm]
    | succ i =>
      have hx : ¬ (x.unit = u ∧ x.channel = ch) := hfirst 0 x (Nat.succ_pos i) (by simp)
      simp only [find_cali_handle, if_neg hx]
      rw [ih (k + 1) i (by simpa using hi)
        (fun j c' hj hjc => hfirst (j + 1) c' (by omega) (by simpa using hjc))]
      congr 1; omega

section Frames
variable {σ : Type} (d : Driver σ)

theorem init_adc1_ref_count (need : Bool) (w : World σ) :
    (init_adc1 d need w).2.g_adc_ref_count = w.g_adc_ref_count := by
  simp only [init_adc1]; split_ifs <;> rfl

theorem init_adc2_ref_count (need : Bool) (w : World σ) :
    (init_adc2 d need w).2.g_adc_ref_count = w.g_adc_ref_count := by
  simp only [init_adc2]; split_ifs <;> rfl

theorem init_adc1_adc2 (need : Bool) (w : World σ) :
    (init_adc1 d need w).2.g_adc2_initialized = w.g_adc2_initialized ∧
    (init_adc1 d need w).2.g_adc2_handle = w.g_adc2_handle := by
  simp only [init_adc1]; split_ifs <;> exact ⟨rfl, rfl⟩

theorem init_adc2_adc1 (need : Bool) (w : World σ) :
    (init_adc2 d need w).2.g_adc1_initialized = w.g_adc1_initialized ∧
    (init_adc2 d need w).2.g_adc1_handle = w.g_adc1_handle := by
  simp only [init_adc2]; split_ifs <;> exact ⟨rfl, rfl⟩

/-- The channel loop leaves the five file-scope variables alone. -/
theorem config_channels_globals (cs : List usr_adc_channel_config_t) (w : World σ)
    (calis : List Nat) (num : Nat) :
    (config_channels d cs w calis num).1.g_adc1_initialized = w.g_adc1_initialized ∧
    (config_channels d cs w calis num).1.g_adc2_initialized = w.g_adc2_initialized ∧
    (config_channels d cs w calis num).1.g_adc1_handle = w.g_adc1_handle ∧
    (config_channels d cs w calis num).1.g_adc2_handle = w.g_adc2_handle ∧
    (config_channels d cs w calis num).1.g_adc_ref_count = w.g_adc_ref_count := by
  induction cs generalizing w calis num with
  | nil => simp [config_channels]
  | cons c rest ih =>
    simp only [config_channels]
    exact ih _ _ _

/-- Deleting calibration handles leaves the five file-scope variables alone. -/
theorem delete_cali_handles_globals (cs : List Nat) (w : World σ) :
    (delete_cali_handles d cs w).g_adc1_initialized = w.g_adc1_initialized ∧
    (delete_cali_handles d cs w).g_adc2_initialized = w.g_adc2_initialized ∧
    (delete_cali_handles d cs w).g_adc1_handle = w.g_adc1_handle ∧
    (delete_cali_handles d cs w).g_adc2_handle = w.g_adc2_handle ∧
    (delete_cali_handles d cs w).g_adc_ref_count = w.g_adc_ref_count := by
  induction cs generalizing w with
  | nil => simp [delete_cali_handles]
  | cons c rest ih =>
    simp only [delete_cali_handles]
    split_ifs
    · exact ih _
    · exact ih _

theorem deinit_adc1_ref_count (h : usr_adc_handle_s) (w : World σ) :
    (deinit_adc1 d h w).g_adc_ref_count = w.g_adc_ref_count := by
  simp only [deinit_adc1]; split_ifs <;> rfl

theorem deinit_adc2_ref_count (h : usr_adc_handle_s) (w : World σ) :
    (deinit_adc2 d h w).g_adc_ref_count = w.g_adc_ref_count := by
  simp only [deinit_adc2]; split_ifs <;> rfl

theorem init_adc1_trace (need : Bool) (w : World σ) :
    (init_adc1 d need w).2.trace = w.trace ++
      (if need = true ∧ w.g_adc1_initialized = false
       then [DriverCall.new_unit ADC_UNIT_1] else []) := by
  simp only [init_adc1]; split_ifs <;> simp

theorem init_adc2_trace (need : Bool) (w : World σ) :
    (init_adc2 d need w).2.trace = w.trace ++
      (if need = true ∧ w.g_adc2_initialized = false
       then [DriverCall.new_unit ADC_UNIT_2] else []) := by
  simp only [init_adc2]; split_ifs <;> simp

/-- Creation of ADC1 ends the call exactly when it was attempted and the driver
reported a failure; the status is then the driver's. -/
theorem init_adc1_status (need : Bool) (w : World σ) :
    (init_adc1 d need w).1 =
      (if need = true ∧ w.g_adc1_initialized = false
       then (d.adc_oneshot_new_unit w.env ADC_UNIT_1).1 else ESP_OK) := by
  simp only [init_adc1]; split_ifs <;> simp_all

theorem init_adc2_status (need : Bool) (w : World σ) :
    (init_adc2 d need w).1 =
      (if need = true ∧ w.g_adc2_initialized = false
       then (d.adc_oneshot_new_unit w.env ADC_UNIT_2).1 else ESP_OK) := by
  simp only [init_adc2]; split_ifs <;> simp_all

theorem init_adc1_env (need : Bool) (w : World σ) :
    (init_adc1 d need w).2.env =
      (if need = true ∧ w.g_adc1_initialized = false
       then (d.adc_oneshot_new_unit w.env ADC_UNIT_1).2.2 else w.env) := by
  simp only [init_adc1]; split_ifs <;> simp

/-- ADC1 after lines 78-95: the flag is set exactly when it was set before or
the creation succeeded; the slot holds what the driver stored, if anything. -/
theorem init_adc1_unit (need : Bool) (w : World σ) :
    (init_adc1 d need w).2.g_adc1_initialized =
      (if need = true ∧ w.g_adc1_initialized = false
       then decide ((d.adc_oneshot_new_unit w.env ADC_UNIT_1).1 = ESP_OK)
       else w.g_adc1_initialized) ∧
    (init_adc1 d need w).2.g_adc1_handle =
      (if need = true ∧ w.g_adc1_initialized = false
       then (d.adc_oneshot_new_unit w.env ADC_UNIT_1).2.1.getD w.g_adc1_handle
       else w.g_adc1_handle) := by
  simp only [init_adc1]; split_ifs <;> simp_all

theorem init_adc2_unit (need : Bool) (w : World σ) :
    (init_adc2 d need w).2.g_adc2_initialized =
      (if need = true ∧ w.g_adc2_initialized = false
       then decide ((d.adc_oneshot_new_unit w.env ADC_UNIT_2).1 = ESP_OK)
       else w.g_adc2_initialized) ∧
    (init_adc2 d need w).2.g_adc2_handle =
      (if need = true ∧ w.g_adc2_initialized = false
       then (d.adc_oneshot_new_unit w.env ADC_UNIT_2).2.1.getD w.g_adc2_handle
       else w.g_adc2_handle) := by
  simp only [init_adc2]; split_ifs <;> simp_all

/-- The channel loop makes no unit-creation call. -/
theorem config_channels_new_unit_calls (u : adc_unit_t)
    (cs : List usr_adc_channel_config_t) (w : World σ) (calis : List Nat) (num : Nat) :
    new_unit_calls u (config_channels d cs w calis num).1.trace = new_unit_calls u w.trace := by
  induction cs generalizing w calis num with
  | nil => simp [config_channels]
  | cons c rest ih =>
    simp only [config_channels]
    rw [ih]
    simp [new_unit_calls, List.count_cons]

theorem cali_answers_length (g1 g2 : Nat) (cs : List usr_adc_channel_config_t) (env : σ) :
    (cali_answers d g1 g2 cs env).length = cs.length := by
  induction cs generalizing env with
  | nil => rfl
  | cons c rest ih => simp [cali_answers, ih]

/-- The channel loop: it makes the calls `channel_calls` for every entry, it
records at each index what the scheme creation stored there (`NULL` if it stored
nothing), and it counts the entries modulo 256. -/
theorem config_channels_spec (cs : List usr_adc_channel_config_t) (w : World σ)
    (calis : List Nat) (num : Nat) :
    (config_channels d cs w calis num).1.trace =
      w.trace ++ channel_calls w.g_adc1_handle w.g_adc2_handle cs ∧
    (config_channels d cs w calis num).2.1 =
      calis ++ (cali_answers d w.g_adc1_handle w.g_adc2_handle cs w.env).map
        (fun r => r.2.getD 0) ∧
    (num < 256 → (config_channels d cs w calis num).2.2 = (num + cs.length) % 256) := by
  induction cs generalizing w calis num with
  | nil =>
    refine ⟨by simp [config_channels, channel_calls], by simp [config_channels, cali_answers], ?_⟩
    intro hnum
    simp [config_channels, Nat.mod_eq_of_lt hnum]
  | cons c rest ih =>
    simp only [config_channels, channel_calls, cali_answers]
    obtain ⟨h1, h2, h3⟩ := ih
      { w with
        env := (d.adc_cali_create_scheme
          (d.adc_oneshot_config_channel w.env
            (if c.unit = ADC_UNIT_1 then w.g_adc1_handle else w.g_adc2_handle)
            c.channel c.atten c.bitwidth).2 c.unit c.atten c.bitwidth).2.2
        trace := w.trace ++
          [DriverCall.config_channel
            (if c.unit = ADC_UNIT_1 then w.g_adc1_handle else w.g_adc2_handle)
            c.channel c.atten c.bitwidth,
           DriverCall.cali_create_scheme c.unit c.atten c.bitwidth] }
      (calis ++ [(d.adc_cali_create_scheme
          (d.adc_oneshot_config_channel w.env
            (if c.unit = ADC_UNIT_1 then w.g_adc1_handle else w.g_adc2_handle)
            c.channel c.atten c.bitwidth).2 c.unit c.atten c.bitwidth).2.1.getD 0])
      ((num + 1) % 256)
    refine ⟨?_, ?_, ?_⟩
    · rw [h1]; simp
    · rw [h2]; simp
    · intro _
      rw [h3 (Nat.mod_lt _ (by decide))]; simp only [List.length_cons]; omega

/-- The body of `usr_adc_init` once the argument check and the allocations have
passed. -/
theorem usr_adc_init_of_valid (w : World σ) (cs : List usr_adc_channel_config_t) (n : Nat)
    (hn : n ≠ 0) (halloc : (alloc_handle d w.env).1 = true) :
    usr_adc_init d w (some cs) n true =
      (let w0 : World σ := { w with env := (alloc_handle d w.env).2 }
       let need := scan_units (cs.take n) (false, false)
       let r1 := init_adc1 d need.1 w0
       if r1.1 ≠ ESP_OK then (r1.1, none, r1.2) else
       let r2 := init_adc2 d need.2 r1.2
       if r2.1 ≠ ESP_OK then (r2.1, none, r2.2) else
       let r3 := config_channels d (cs.take n) r2.2 [] 0
       (ESP_OK,
        some { uses_adc1 := need.1, uses_adc2 := need.2, cali_handles := r3.2.1,
               cali_handle_num := r3.2.2, channel_configs := cs.take n, channel_num := n },
        { r3.1 with g_adc_ref_count := r3.1.g_adc_ref_count + 1 })) := by
  simp [usr_adc_init, hn, halloc]

/-- A `usr_adc_init` call that returns `ESP_OK` had a non-`NULL` array, a
non-zero count, a non-`NULL` output pointer and three successful allocations. -/
theorem usr_adc_init_ok_valid (w : World σ)
    (cfgs : Option (List usr_adc_channel_config_t)) (n : Nat) (out : Bool)
    (hok : (usr_adc_init d w cfgs n out).1 = ESP_OK) :
    (∃ cs, cfgs = some cs) ∧ n ≠ 0 ∧ out = true ∧ (alloc_handle d w.env).1 = true := by
  cases cfgs with
  | none => simp [usr_adc_init, esp_ok_ne_invalid_arg] at hok
  | some cs =>
    simp only [usr_adc_init] at hok
    split_ifs at hok with h1 h2
    · simp [esp_ok_ne_invalid_arg] at hok
    · simp [esp_ok_ne_no_mem] at hok
    all_goals
      refine ⟨⟨cs, rfl⟩, ?_, ?_, ?_⟩
      · intro h; exact h1 (Or.inl h)
      · cases out with
        | true => rfl
        | false => exact absurd (Or.inr rfl) h1
      · simpa using h2

/-- After lines 78-114 have run for valid arguments, the state of the two units
and the creation calls made. -/
theorem usr_adc_init_units (w : World σ) (cs : List usr_adc_channel_config_t) (n : Nat)
    (hn : n ≠ 0) (halloc : (alloc_handle d w.env).1 = true) :
    (usr_adc_init d w (some cs) n true).1 =
      (if (init_adc1 d (scan_units (cs.take n) (false, false)).1
            { w with env := (alloc_handle d w.env).2 }).1 ≠ ESP_OK
       then (init_adc1 d (scan_units (cs.take n) (false, false)).1
            { w with env := (alloc_handle d w.env).2 }).1
       else (init_adc2 d (scan_units (cs.take n) (false, false)).2
            (init_adc1 d (scan_units (cs.take n) (false, false)).1
              { w with env := (alloc_handle d w.env).2 }).2).1) ∧
    (usr_adc_init d w (some cs) n true).2.2.g_adc1_initialized =
      (init_adc1 d (scan_units (cs.take n) (false, false)).1
        { w with env := (alloc_handle d w.env).2 }).2.g_adc1_initialized ∧
    (usr_adc_init d w (some cs) n true).2.2.g_adc1_handle =
      (init_adc1 d (scan_units (cs.take n) (false, false)).1
        { w with env := (alloc_handle d w.env).2 }).2.g_adc1_handle ∧
    (usr_adc_init d w (some cs) n true).2.2.g_adc2_initialized =
      (if (init_adc1 d (scan_units (cs.take n) (false, false)).1
            { w with env := (alloc_handle d w.env).2 }).1 ≠ ESP_OK
       then w.g_adc2_initialized
       else (init_adc2 d (scan_units (cs.take n) (false, false)).2
            (init_adc1 d (scan_units (cs.take n) (false, false)).1
              { w with env := (alloc_handle d w.env).2 }).2).2.g_adc2_initialized) ∧
    (usr_adc_init d w (some cs) n true).2.2.g_adc2_handle =
      (if (init_adc1 d (scan_units (cs.take n) (false, false)).1
            { w with env := (alloc_handle d w.env).2 }).1 ≠ ESP_OK
       then w.g_adc2_handle
       else (init_adc2 d (scan_units (cs.take n) (false, false)).2
            (init_adc1 d (scan_units (cs.take n) (false, false)).1
              { w with env := (alloc_handle d w.env).2 }).2).2.g_adc2_handle) ∧
    (∀ u, new_unit_calls u (usr_adc_init d w (some cs) n true).2.2.trace =
      (if (init_adc1 d (scan_units (cs.take n) (false, false)).1
            { w with env := (alloc_handle d w.env).2 }).1 ≠ ESP_OK
       then new_unit_calls u (init_adc1 d (scan_units (cs.take n) (false, false)).1
            { w with env := (alloc_handle d w.env).2 }).2.trace
       else new_unit_calls u (init_adc2 d (scan_units (cs.take n) (false, false)).2
            (init_adc1 d (scan_units (cs.take n) (false, false)).1
              { w with env := (alloc_handle d w.env).2 }).2).2.trace)) := by
  rw [usr_adc_init_of_valid d w cs n hn halloc]
  simp only []
  split_ifs with h1 h2
  · simp [(init_adc1_adc2 d _ _).1, (init_adc1_adc2 d _ _).2]
  · simp [(init_adc2_adc1 d _ _).1, (init_adc2_adc1 d _ _).2, h2]
  · have h2' : (init_adc2 d (scan_units (cs.take n) (false, false)).2
            (init_adc1 d (scan_units (cs.take n) (false, false)).1
              { w with env := (alloc_handle d w.env).2 }).2).1 = ESP_OK := by
      simpa using h2
    simp [(config_channels_globals d _ _ _ _).1, (config_channels_globals d _ _ _ _).2.1,
      (config_channels_globals d _ _ _ _).2.2.1, (config_channels_globals d _ _ _ _).2.2.2.1,
      (init_adc2_adc1 d _ _).1, (init_adc2_adc1 d _ _).2, h2',
      config_channels_new_unit_calls]

/-- Unit-creation calls of one `usr_adc_init` call with valid arguments, in
terms of the configuration list, the flags and the driver's answers. -/
theorem usr_adc_init_creation_calls (w : World σ) (cs : List usr_adc_channel_config_t)
    (n : Nat) (hn : n ≠ 0) (halloc : (alloc_handle d w.env).1 = true) :
    new_unit_calls ADC_UNIT_1 (usr_adc_init d w (some cs) n true).2.2.trace =
      new_unit_calls ADC_UNIT_1 w.trace +
        (if selects_unit ADC_UNIT_1 (cs.take n) = true ∧ w.g_adc1_initialized = false
         then 1 else 0) ∧
    new_unit_calls ADC_UNIT_2 (usr_adc_init d w (some cs) n true).2.2.trace =
      new_unit_calls ADC_UNIT_2 w.trace +
        (if selects_unit ADC_UNIT_2 (cs.take n) = true ∧ w.g_adc2_initialized = false ∧
            ¬ (selects_unit ADC_UNIT_1 (cs.take n) = true ∧ w.g_adc1_initialized = false ∧
               (d.adc_oneshot_new_unit (alloc_handle d w.env).2 ADC_UNIT_1).1 ≠ ESP_OK)
         then 1 else 0) := by
  have hu := (usr_adc_init_units d w cs n hn halloc).2.2.2.2.2
  have h12 : ¬ ADC_UNIT_1 = ADC_UNIT_2 := by decide
  have h21 : ¬ ADC_UNIT_2 = ADC_UNIT_1 := by decide
  constructor
  · rw [hu ADC_UNIT_1]
    simp only [init_adc1_status, init_adc2_trace, init_adc1_trace, scan_units_selects,
      (init_adc1_adc2 d _ _).1]
    split_ifs <;> simp_all [new_unit_calls, List.count_cons]
  · rw [hu ADC_UNIT_2]
    simp only [init_adc1_status, init_adc2_trace, init_adc1_trace, scan_units_selects,
      (init_adc1_adc2 d _ _).1]
    split_ifs <;> simp_all [new_unit_calls, List.count_cons]

/-- The three ways a `usr_adc_init` call can go: rejected arguments (nothing
changes), a failed allocation (only the platform state changes), or the body. -/
theorem usr_adc_init_cases (w : World σ)
    (cfgs : Option (List usr_adc_channel_config_t)) (n : Nat) (out : Bool) :
    usr_adc_init d w cfgs n out = (ESP_ERR_INVALID_ARG, none, w) ∨
    usr_adc_init d w cfgs n out =
      (ESP_ERR_NO_MEM, none, { w with env := (alloc_handle d w.env).2 }) ∨
    (∃ cs, cfgs = some cs ∧ n ≠ 0 ∧ out = true ∧ (alloc_handle d w.env).1 = true) := by
  cases cfgs with
  | none => left; rfl
  | some cs =>
    by_cases h1 : n = 0 ∨ out = false
    · left; simp [usr_adc_init, h1]
    · by_cases h2 : (alloc_handle d w.env).1 = false
      · right; left; simp [usr_adc_init, h1, h2]
      · right; right
        refine ⟨cs, rfl, fun h => h1 (Or.inl h), ?_, by simpa using h2⟩
        cases out with
        | true => rfl
        | false => exact absurd (Or.inr rfl) h1

/-- A unit that is already initialized is reused: whatever the arguments, the
call makes no creation call for it and leaves its flag and stored handle. -/
theorem usr_adc_init_reuse_adc1 (w : World σ)
    (cfgs : Option (List usr_adc_channel_config_t)) (n : Nat) (out : Bool)
    (hinit : w.g_adc1_initialized = true) :
    (usr_adc_init d w cfgs n out).2.2.g_adc1_initialized = true ∧
    (usr_adc_init d w cfgs n out).2.2.g_adc1_handle = w.g_adc1_handle ∧
    new_unit_calls ADC_UNIT_1 (usr_adc_init d w cfgs n out).2.2.trace =
      new_unit_calls ADC_UNIT_1 w.trace := by
  rcases usr_adc_init_cases d w cfgs n out with h | h | ⟨cs, rfl, hn, rfl, halloc⟩
  · simp [h, hinit]
  · simp [h, hinit]
  · have hu := usr_adc_init_units d w cs n hn halloc
    have hc := (usr_adc_init_creation_calls d w cs n hn halloc).1
    rw [hu.2.1, hu.2.2.1, hc]
    simp [(init_adc1_unit d _ _).1, (init_adc1_unit d _ _).2, hinit]

theorem usr_adc_init_reuse_adc2 (w : World σ)
    (cfgs : Option (List usr_adc_channel_config_t)) (n : Nat) (out : Bool)
    (hinit : w.g_adc2_initialized = true) :
    (usr_adc_init d w cfgs n out).2.2.g_adc2_initialized = true ∧
    (usr_adc_init d w cfgs n out).2.2.g_adc2_handle = w.g_adc2_handle ∧
    new_unit_calls ADC_UNIT_2 (usr_adc_init d w cfgs n out).2.2.trace =
      new_unit_calls ADC_UNIT_2 w.trace := by
  rcases usr_adc_init_cases d w cfgs n out with h | h | ⟨cs, rfl, hn, rfl, halloc⟩
  · simp [h, hinit]
  · simp [h, hinit]
  · have hu := usr_adc_init_units d w cs n hn halloc
    have hc := (usr_adc_init_creation_calls d w cs n hn halloc).2
    rw [hu.2.2.2.1, hu.2.2.2.2.1, hc]
    simp [(init_adc2_unit d _ _).1, (init_adc2_unit d _ _).2, (init_adc1_adc2 d _ _).1,
      (init_adc1_adc2 d _ _).2, hinit]

/-- The status of a `usr_adc_init` call with valid arguments, in terms of the
driver's answers to the creation calls it makes. -/
theorem usr_adc_init_status (w : World σ) (cs : List usr_adc_channel_config_t)
    (n : Nat) (hn : n ≠ 0) (halloc : (alloc_handle d w.env).1 = true) :
    (usr_adc_init d w (some cs) n true).1 =
      (if selects_unit ADC_UNIT_1 (cs.take n) = true ∧ w.g_adc1_initialized = false then
        (if (d.adc_oneshot_new_unit (alloc_handle d w.env).2 ADC_UNIT_1).1 ≠ ESP_OK then
          (d.adc_oneshot_new_unit (alloc_handle d w.env).2 ADC_UNIT_1).1
         else if selects_unit ADC_UNIT_2 (cs.take n) = true ∧ w.g_adc2_initialized = false then
          (d.adc_oneshot_new_unit
            (d.adc_oneshot_new_unit (alloc_handle d w.env).2 ADC_UNIT_1).2.2 ADC_UNIT_2).1
         else ESP_OK)
       else if selects_unit ADC_UNIT_2 (cs.take n) = true ∧ w.g_adc2_initialized = false then
        (d.adc_oneshot_new_unit (alloc_handle d w.env).2 ADC_UNIT_2).1
       else ESP_OK) := by
  rw [(usr_adc_init_units d w cs n hn halloc).1]
  simp only [init_adc1_status, init_adc2_status, init_adc1_env, scan_units_selects,
    (init_adc1_adc2 d _ _).1]
  split_ifs <;> simp_all

/-- After a successful `usr_adc_init`, every unit the list selects is marked
initialized, and the handle records exactly the selected units. -/
theorem usr_adc_init_ok_units (w : World σ) (cs : List usr_adc_channel_config_t)
    (n : Nat) (out : Bool) (hok : (usr_adc_init d w (some cs) n out).1 = ESP_OK) :
    (selects_unit ADC_UNIT_1 (cs.take n) = true →
      (usr_adc_init d w (some cs) n out).2.2.g_adc1_initialized = true) ∧
    (selects_unit ADC_UNIT_2 (cs.take n) = true →
      (usr_adc_init d w (some cs) n out).2.2.g_adc2_initialized = true) ∧
    (∃ h, (usr_adc_init d w (some cs) n out).2.1 = some h ∧
      h.uses_adc1 = selects_unit ADC_UNIT_1 (cs.take n) ∧
      h.uses_adc2 = selects_unit ADC_UNIT_2 (cs.take n) ∧
      h.channel_configs = cs.take n ∧ h.channel_num = n) := by
  obtain ⟨_, hn, rfl, halloc⟩ := usr_adc_init_ok_valid d w (some cs) n out hok
  have hs := usr_adc_init_status d w cs n hn halloc
  have hu := usr_adc_init_units d w cs n hn halloc
  rw [hok] at hs
  refine ⟨?_, ?_, ?_⟩
  · intro h1
    rw [hu.2.1, (init_adc1_unit d _ _).1, scan_units_selects]
    simp only [h1]
    split_ifs at hs ⊢ <;> simp_all
  · intro h2
    rw [hu.2.2.2.1, (init_adc2_unit d _ _).1, init_adc1_status, init_adc1_env,
      scan_units_selects, (init_adc1_adc2 d _ _).1]
    simp only [h2]
    split_ifs at hs ⊢ <;> simp_all
  · have hr := usr_adc_init_of_valid d w cs n hn halloc
    have hok' := hok
    rw [(usr_adc_init_units d w cs n hn halloc).1] at hok'
    simp only [] at hr
    split_ifs at hr hok' with h1 h2
    · exact absurd hok' h1
    · exact absurd hok' h2
    · rw [hr]
      exact ⟨_, rfl, by simp [scan_units_selects], by simp [scan_units_selects], rfl, rfl⟩

/-- The result of a successful `usr_adc_init`: the handle built from the
scanned units, the copied list and the outcome of the channel loop; the world
is the one the channel loop leaves, with the counter raised. -/
theorem usr_adc_init_ok_eq (w : World σ) (cs : List usr_adc_channel_config_t) (n : Nat)
    (out : Bool) (hok : (usr_adc_init d w (some cs) n out).1 = ESP_OK) :
    usr_adc_init d w (some cs) n out =
      (ESP_OK,
       some { uses_adc1 := selects_unit ADC_UNIT_1 (cs.take n)
              uses_adc2 := selects_unit ADC_UNIT_2 (cs.take n)
              cali_handles := (config_channels d (cs.take n) (units_phase d w cs n) [] 0).2.1
              cali_handle_num := (config_channels d (cs.take n) (units_phase d w cs n) [] 0).2.2
              channel_configs := cs.take n
              channel_num := n },
       { (config_channels d (cs.take n) (units_phase d w cs n) [] 0).1 with
         g_adc_ref_count :=
           (config_channels d (cs.take n) (units_phase d w cs n) [] 0).1.g_adc_ref_count + 1 }) := by
  obtain ⟨_, hn, rfl, halloc⟩ := usr_adc_init_ok_valid d w (some cs) n out hok
  have hr := usr_adc_init_of_valid d w cs n hn halloc
  have hok' := hok
  rw [(usr_adc_init_units d w cs n hn halloc).1] at hok'
  simp only [] at hr
  split_ifs at hr hok' with h1 h2
  · exact absurd hok' h1
  · exact absurd hok' h2
  · rw [hr]; simp [units_phase, scan_units_selects]

/-- The driver calls logged in `units_phase`: those of lines 78-114 when the
creation of ADC1 does not fail. -/
theorem units_phase_trace (w : World σ) (cs : List usr_adc_channel_config_t) (n : Nat) :
    (units_phase d w cs n).trace =
      w.trace ++
        (if selects_unit ADC_UNIT_1 (cs.take n) = true ∧ w.g_adc1_initialized = false
         then [DriverCall.new_unit ADC_UNIT_1] else []) ++
        (if selects_unit ADC_UNIT_2 (cs.take n) = true ∧ w.g_adc2_initialized = false
         then [DriverCall.new_unit ADC_UNIT_2] else []) := by
  simp only [units_phase, init_adc2_trace, init_adc1_trace, scan_units_selects,
    (init_adc1_adc2 d _ _).1]

/-- A `usr_adc_init` call stores a handle exactly when it returns `ESP_OK`, and
then the counter is one more than before; otherwise the counter is as before. -/
theorem usr_adc_init_ref_count (w : World σ)
    (cfgs : Option (List usr_adc_channel_config_t)) (n : Nat) (out : Bool) :
    ((usr_adc_init d w cfgs n out).1 = ESP_OK ↔ (usr_adc_init d w cfgs n out).2.1.isSome) ∧
    (usr_adc_init d w cfgs n out).2.2.g_adc_ref_count =
      (if (usr_adc_init d w cfgs n out).1 = ESP_OK then w.g_adc_ref_count + 1
       else w.g_adc_ref_count) := by
  cases cfgs with
  | none => simp [usr_adc_init, esp_ok_ne_invalid_arg]
  | some cs =>
    simp only [usr_adc_init]
    split_ifs <;>
      simp_all [esp_ok_ne_invalid_arg, esp_ok_ne_no_mem, init_adc1_ref_count,
        init_adc2_ref_count, (config_channels_globals d _ _ _ _).2.2.2.2]

/-- A `usr_adc_deinit` call on a handle lowers the counter by one. -/
theorem usr_adc_deinit_ref_count (w : World σ) (h : usr_adc_handle_s) :
    (usr_adc_deinit d w (some h)).1 = ESP_OK ∧
    (usr_adc_deinit d w (some h)).2.g_adc_ref_count = w.g_adc_ref_count - 1 := by
  simp only [usr_adc_deinit]
  split_ifs with h0
  · simp [deinit_adc1_ref_count, deinit_adc2_ref_count,
      (delete_cali_handles_globals d _ _).2.2.2.2]
  · simp [(delete_cali_handles_globals d _ _).2.2.2.2]

/-- Deleting calibration handles makes no unit-destruction call. -/
theorem delete_cali_handles_del_unit_log (cs : List Nat) (w : World σ) :
    del_unit_log (delete_cali_handles d cs w).trace = del_unit_log w.trace := by
  induction cs generalizing w with
  | nil => simp [delete_cali_handles]
  | cons c rest ih =>
    simp only [delete_cali_handles]
    split_ifs
    · rw [ih]; simp [del_unit_log, del_unit_arg]
    · exact ih _

/-- What `usr_adc_deinit` does to the counter, the two units and the log of
unit-destruction calls, for a non-`NULL` handle. -/
theorem usr_adc_deinit_units (w : World σ) (h : usr_adc_handle_s) :
    (usr_adc_deinit d w (some h)).2.g_adc1_initialized =
      (if w.g_adc_ref_count - 1 = 0 ∧ w.g_adc1_initialized = true ∧ h.uses_adc1 = true
       then false else w.g_adc1_initialized) ∧
    (usr_adc_deinit d w (some h)).2.g_adc1_handle =
      (if w.g_adc_ref_count - 1 = 0 ∧ w.g_adc1_initialized = true ∧ h.uses_adc1 = true
       then 0 else w.g_adc1_handle) ∧
    (usr_adc_deinit d w (some h)).2.g_adc2_initialized =
      (if w.g_adc_ref_count - 1 = 0 ∧ w.g_adc2_initialized = true ∧ h.uses_adc2 = true
       then false else w.g_adc2_initialized) ∧
    (usr_adc_deinit d w (some h)).2.g_adc2_handle =
      (if w.g_adc_ref_count - 1 = 0 ∧ w.g_adc2_initialized = true ∧ h.uses_adc2 = true
       then 0 else w.g_adc2_handle) ∧
    del_unit_log (usr_adc_deinit d w (some h)).2.trace =
      del_unit_log w.trace ++
        (if w.g_adc_ref_count - 1 = 0 ∧ w.g_adc1_initialized = true ∧ h.uses_adc1 = true
         then [w.g_adc1_handle] else []) ++
        (if w.g_adc_ref_count - 1 = 0 ∧ w.g_adc2_initialized = true ∧ h.uses_adc2 = true
         then [w.g_adc2_handle] else []) := by
  have hg := delete_cali_handles_globals d (h.cali_handles.take h.cali_handle_num) w
  have ht := delete_cali_handles_del_unit_log d (h.cali_handles.take h.cali_handle_num) w
  simp only [usr_adc_deinit, deinit_adc1, deinit_adc2, hg.1, hg.2.1, hg.2.2.1, hg.2.2.2.1,
    hg.2.2.2.2]
  by_cases h0 : w.g_adc_ref_count - 1 = 0
  · by_cases a1 : w.g_adc1_initialized = true ∧ h.uses_adc1 = true
    · by_cases a2 : w.g_adc2_initialized = true ∧ h.uses_adc2 = true
      · simp [h0, a1, a2, hg.1, hg.2.1, hg.2.2.1, hg.2.2.2.1, del_unit_log, del_unit_arg,
          List.filterMap_append] at ht ⊢
        simp [ht]
      · simp [h0, a1, a2, hg.1, hg.2.1, hg.2.2.1, hg.2.2.2.1, del_unit_log, del_unit_arg,
          List.filterMap_append] at ht ⊢
        simp [ht]
    · by_cases a2 : w.g_adc2_initialized = true ∧ h.uses_adc2 = true
      · simp [h0, a1, a2, hg.1, hg.2.1, hg.2.2.1, hg.2.2.2.1, del_unit_log, del_unit_arg,
          List.filterMap_append] at ht ⊢
        simp [ht]
      · simp [h0, a1, a2, hg.1, hg.2.1, hg.2.2.1, hg.2.2.2.1, del_unit_log, del_unit_arg,
          List.filterMap_append] at ht ⊢
        simp [ht]
  · simp [h0, hg.1, hg.2.1, hg.2.2.1, hg.2.2.2.1, ht]

/-- A handle stored by `usr_adc_init` records exactly the units its own
configuration list selects. -/
theorem usr_adc_init_handle_uses (w : World σ)
    (cfgs : Option (List usr_adc_channel_config_t)) (n : Nat) (out : Bool)
    (h : usr_adc_handle_s) (hh : (usr_adc_init d w cfgs n out).2.1 = some h) :
    h.uses_adc1 = selects_unit ADC_UNIT_1 h.channel_configs ∧
    h.uses_adc2 = selects_unit ADC_UNIT_2 h.channel_configs := by
  have hok : (usr_adc_init d w cfgs n out).1 = ESP_OK :=
    (usr_adc_init_ref_count d w cfgs n out).1.mpr (by simp [hh])
  obtain ⟨⟨cs, rfl⟩, _, _, _⟩ := usr_adc_init_ok_valid d w cfgs n out hok
  obtain ⟨_, _, h', hh', hu1, hu2, hcfg, _⟩ := usr_adc_init_ok_units d w cs n out hok
  have : h = h' := by rw [hh] at hh'; exact Option.some.inj hh'
  subst this
  rw [hcfg]; exact ⟨hu1, hu2⟩

/-- The function `usr_adc_read_raw` never calls the conversion. -/
theorem usr_adc_read_raw_no_conversion (w : World σ) (handle : Option usr_adc_handle_s)
    (unit : adc_unit_t) (channel : Int) (out : Bool) :
    raw_to_voltage_calls (usr_adc_read_raw d w handle unit channel out).2.2.trace =
      raw_to_voltage_calls w.trace := by
  cases handle with
  | none => rfl
  | some h =>
    simp only [usr_adc_read_raw]
    split_ifs <;> simp [raw_to_voltage_calls, is_raw_to_voltage, List.countP_append,
      List.countP_cons]

/-- The lookup of `usr_adc_read_voltage` finds no handle exactly when no
calibration context exists for the pair. -/
theorem no_cali_context_iff (h : usr_adc_handle_s) (unit : adc_unit_t) (channel : Int) :
    no_cali_context h unit channel ↔
      find_cali_handle h.cali_handles unit channel
        (h.channel_configs.take h.channel_num) 0 = 0 := by
  rw [find_cali_handle_eq_zero_iff]
  simp [no_cali_context]

/-- After a successful raw read, `usr_adc_read_voltage` returns
`ESP_ERR_NOT_FOUND` without conversion when the lookup finds no handle, and
otherwise what the conversion returns. -/
theorem usr_adc_read_voltage_of_read_ok (w : World σ) (h : usr_adc_handle_s)
    (unit : adc_unit_t) (channel : Int) (raw_value : Int)
    (hraw : (usr_adc_read_raw d w (some h) unit channel true).1 = ESP_OK) :
    usr_adc_read_voltage d w (some h) unit channel true raw_value =
      (if find_cali_handle h.cali_handles unit channel
            (h.channel_configs.take h.channel_num) 0 = 0
       then (ESP_ERR_NOT_FOUND, none, (usr_adc_read_raw d w (some h) unit channel true).2.2)
       else
        ((d.adc_cali_raw_to_voltage (usr_adc_read_raw d w (some h) unit channel true).2.2.env
            (find_cali_handle h.cali_handles unit channel
              (h.channel_configs.take h.channel_num) 0)
            ((usr_adc_read_raw d w (some h) unit channel true).2.1.getD raw_value)).1,
         (d.adc_cali_raw_to_voltage (usr_adc_read_raw d w (some h) unit channel true).2.2.env
            (find_cali_handle h.cali_handles unit channel
              (h.channel_configs.take h.channel_num) 0)
            ((usr_adc_read_raw d w (some h) unit channel true).2.1.getD raw_value)).2.1,
         { (usr_adc_read_raw d w (some h) unit channel true).2.2 with
           env := (d.adc_cali_raw_to_voltage
              (usr_adc_read_raw d w (some h) unit channel true).2.2.env
              (find_cali_handle h.cali_handles unit channel
                (h.channel_configs.take h.channel_num) 0)
              ((usr_adc_read_raw d w (some h) unit channel true).2.1.getD raw_value)).2.2
           trace := (usr_adc_read_raw d w (some h) unit channel true).2.2.trace ++
              [DriverCall.raw_to_voltage
                (find_cali_handle h.cali_handles unit channel
                  (h.channel_configs.take h.channel_num) 0)
                ((usr_adc_read_raw d w (some h) unit channel true).2.1.getD raw_value)] })) := by
  simp only [usr_adc_read_voltage]
  rw [if_neg (by simp), if_neg (by simp [hraw])]

/-- Under the creation contract, lines 78-95 keep "flag iff handle" for ADC1. -/
theorem init_adc1_flag_handle (hd : UnitCreationContract d) (need : Bool) (w : World σ)
    (hw : w.g_adc1_initialized = true ↔ w.g_adc1_handle ≠ 0) :
    (init_adc1 d need w).2.g_adc1_initialized = true ↔
      (init_adc1 d need w).2.g_adc1_handle ≠ 0 := by
  rw [(init_adc1_unit d need w).1, (init_adc1_unit d need w).2]
  by_cases hc : need = true ∧ w.g_adc1_initialized = false
  · rw [if_pos hc, if_pos hc]
    by_cases hs : (d.adc_oneshot_new_unit w.env ADC_UNIT_1).1 = ESP_OK
    · obtain ⟨p, hp, hp0⟩ := (hd w.env ADC_UNIT_1).1 hs
      simp [hs, hp, hp0]
    · have hn := (hd w.env ADC_UNIT_1).2 hs
      have h0 : w.g_adc1_handle = 0 := by
        by_contra hne
        have := hw.mpr hne
        rw [hc.2] at this
        exact Bool.false_ne_true this
      simp [hs, hn, h0]
  · rw [if_neg hc, if_neg hc]; exact hw

/-- Under the creation contract, lines 97-114 keep "flag iff handle" for ADC2. -/
theorem init_adc2_flag_handle (hd : UnitCreationContract d) (need : Bool) (w : World σ)
    (hw : w.g_adc2_initialized = true ↔ w.g_adc2_handle ≠ 0) :
    (init_adc2 d need w).2.g_adc2_initialized = true ↔
      (init_adc2 d need w).2.g_adc2_handle ≠ 0 := by
  rw [(init_adc2_unit d need w).1, (init_adc2_unit d need w).2]
  by_cases hc : need = true ∧ w.g_adc2_initialized = false
  · rw [if_pos hc, if_pos hc]
    by_cases hs : (d.adc_oneshot_new_unit w.env ADC_UNIT_2).1 = ESP_OK
    · obtain ⟨p, hp, hp0⟩ := (hd w.env ADC_UNIT_2).1 hs
      simp [hs, hp, hp0]
    · have hn := (hd w.env ADC_UNIT_2).2 hs
      have h0 : w.g_adc2_handle = 0 := by
        by_contra hne
        have := hw.mpr hne
        rw [hc.2] at this
        exact Bool.false_ne_true this
      simp [hs, hn, h0]
  · rw [if_neg hc, if_neg hc]; exact hw

/-- Under the creation contract, `usr_adc_init` keeps `FlagsMatchHandles`. -/
theorem usr_adc_init_flags_match (hd : UnitCreationContract d) (w : World σ)
    (cfgs : Option (List usr_adc_channel_config_t)) (n : Nat) (out : Bool)
    (hw : FlagsMatchHandles w) :
    FlagsMatchHandles (usr_adc_init d w cfgs n out).2.2 := by
  rcases usr_adc_init_cases d w cfgs n out with h | h | ⟨cs, rfl, hn, rfl, halloc⟩
  · rw [h]; exact hw
  · rw [h]; exact hw
  · have hu := usr_adc_init_units d w cs n hn halloc
    constructor
    · rw [hu.2.1, hu.2.2.1]
      exact init_adc1_flag_handle d hd _ _ hw.1
    · rw [hu.2.2.2.1, hu.2.2.2.2.1]
      split_ifs
      · exact hw.2
      · apply init_adc2_flag_handle d hd
        rw [(init_adc1_adc2 d _ _).1, (init_adc1_adc2 d _ _).2]
        exact hw.2

/-- The function `usr_adc_deinit` keeps `FlagsMatchHandles`: a unit it tears
down gets flag false and handle `NULL` together. -/
theorem usr_adc_deinit_flags_match (w : World σ) (handle : Option usr_adc_handle_s)
    (hw : FlagsMatchHandles w) :
    FlagsMatchHandles (usr_adc_deinit d w handle).2 := by
  cases handle with
  | none => exact hw
  | some h =>
    have hu := usr_adc_deinit_units d w h
    constructor
    · rw [hu.1, hu.2.1]
      split_ifs
      · simp
      · exact hw.1
    · rw [hu.2.2.1, hu.2.2.2.1]
      split_ifs
      · simp
      · exact hw.2

/-- Lines 228-236 delete each non-`NULL` handle of the list once, in order, and
no other. -/
theorem delete_cali_handles_cali_delete_log (cs : List Nat) (w : World σ) :
    cali_delete_log (delete_cali_handles d cs w).trace =
      cali_delete_log w.trace ++ cs.filter (fun c => decide (c ≠ 0)) := by
  induction cs generalizing w with
  | nil => simp [delete_cali_handles]
  | cons c rest ih =>
    simp only [delete_cali_handles]
    split_ifs with hc
    · rw [ih]
      simp [cali_delete_log, cali_delete_arg, List.filterMap_append, List.filter_cons, hc]
    · rw [ih]
      simp [List.filter_cons, hc]

/-- The scheme deletions of one `usr_adc_deinit` call. -/
theorem usr_adc_deinit_cali_delete_log (w : World σ) (h : usr_adc_handle_s) :
    cali_delete_log (usr_adc_deinit d w (some h)).2.trace =
      cali_delete_log w.trace ++
        (h.cali_handles.take h.cali_handle_num).filter (fun c => decide (c ≠ 0)) := by
  have ht := delete_cali_handles_cali_delete_log d (h.cali_handles.take h.cali_handle_num) w
  simp only [usr_adc_deinit, deinit_adc1, deinit_adc2]
  split_ifs <;>
    simp [cali_delete_log, cali_delete_arg, List.filterMap_append] at ht ⊢ <;>
    exact ht

/-- The counts and lists of a handle stored by `usr_adc_init` for a list of
exactly `n` entries, `n` below 256. -/
theorem usr_adc_init_handle_shape (w : World σ) (cs : List usr_adc_channel_config_t)
    (n : Nat) (out : Bool) (h : usr_adc_handle_s)
    (hlen : cs.length = n) (h255 : n ≤ 255)
    (hh : (usr_adc_init d w (some cs) n out).2.1 = some h) :
    h.cali_handle_num = n ∧ h.channel_num = n ∧ h.channel_configs = cs ∧
    h.cali_handles.length = n := by
  have hok : (usr_adc_init d w (some cs) n out).1 = ESP_OK :=
    (usr_adc_init_ref_count d w (some cs) n out).1.mpr (by simp [hh])
  have he := usr_adc_init_ok_eq d w cs n out hok
  rw [he] at hh
  have hh' := Option.some.inj hh
  have htake : cs.take n = cs := by rw [← hlen]; exact List.take_length cs
  have hsp := config_channels_spec d (cs.take n) (units_phase d w cs n) [] 0
  subst hh'
  refine ⟨?_, rfl, htake, ?_⟩
  · simp only []
    rw [hsp.2.2 (by decide), htake, hlen]
    omega
  · simp only []
    rw [hsp.2.1]
    simp [cali_answers_length, htake, hlen]

/-- The pointer form of the raw read returns what `usr_adc_read_raw` returns for
the object the pointer denotes, and the handle memory it was given. -/
theorem usr_adc_read_raw_mem_eq (w : World σ) (mem : HandleMemory) (handle : Nat)
    (unit : adc_unit_t) (channel : Int) (out : Bool) :
    usr_adc_read_raw_mem d w mem handle unit channel out =
      ((usr_adc_read_raw d w (deref_handle mem handle) unit channel out).1,
       (usr_adc_read_raw d w (deref_handle mem handle) unit channel out).2.1,
       (usr_adc_read_raw d w (deref_handle mem handle) unit channel out).2.2,
       mem) := by
  by_cases h0 : handle = 0
  · simp [usr_adc_read_raw_mem, usr_adc_read_raw, deref_handle, h0]
  · cases out with
    | false => simp [usr_adc_read_raw_mem, usr_adc_read_raw, deref_handle, h0]
    | true =>
      simp only [usr_adc_read_raw_mem, usr_adc_read_raw, deref_handle, h0, if_false,
        false_or, Bool.true_eq_false]
      split_ifs <;> rfl

/-- The pointer form of the voltage read returns what `usr_adc_read_voltage`
returns for the object the pointer denotes, and the handle memory it was
given. -/
theorem usr_adc_read_voltage_mem_eq (w : World σ) (mem : HandleMemory) (handle : Nat)
    (unit : adc_unit_t) (channel : Int) (out : Bool) (raw_value : Int) :
    usr_adc_read_voltage_mem d w mem handle unit channel out raw_value =
      ((usr_adc_read_voltage d w (deref_handle mem handle) unit channel out raw_value).1,
       (usr_adc_read_voltage d w (deref_handle mem handle) unit channel out raw_value).2.1,
       (usr_adc_read_voltage d w (deref_handle mem handle) unit channel out raw_value).2.2,
       mem) := by
  by_cases h0 : handle = 0
  · simp [usr_adc_read_voltage_mem, usr_adc_read_voltage, deref_handle, h0]
  · cases out with
    | false => simp [usr_adc_read_voltage_mem, usr_adc_read_voltage, deref_handle, h0]
    | true =>
      have hr := usr_adc_read_raw_mem_eq d w mem handle unit channel true
      have hd : deref_handle mem handle = some (mem handle) := by simp [deref_handle, h0]
      rw [hd] at hr ⊢
      simp only [usr_adc_read_voltage_mem, usr_adc_read_voltage, h0, if_false, false_or,
        Bool.true_eq_false, hr]
      split_ifs <;> rfl

end Frames

/-! ## Invariants of call sequences -/

section Sequences
variable {σ : Type} (d : Driver σ)

/-- A property that holds initially and is kept by every call holds after any
sequence of calls. -/
theorem run_preserves (P : Sys σ → Prop) (hstep : ∀ s op, P s → P (step d s op))
    (s : Sys σ) (ops : List Op) (h0 : P s) : P (run d s ops) := by
  induction ops generalizing s with
  | nil => exact h0
  | cons op rest ih => exact ih (step d s op) (hstep s op h0)

/-- Every call keeps the counter equal to the number of live handles. -/
theorem step_ref_count (s : Sys σ) (op : Op)
    (h : s.w.g_adc_ref_count = s.live.length) :
    (step d s op).w.g_adc_ref_count = (step d s op).live.length := by
  cases op with
  | init cfgs n out =>
    have hc := usr_adc_init_ref_count d s.w cfgs n out
    simp only [step]
    cases hr : (usr_adc_init d s.w cfgs n out).2.1 with
    | none =>
      have hne : ¬ (usr_adc_init d s.w cfgs n out).1 = ESP_OK := by
        intro hok; have := hc.1.mp hok; simp [hr] at this
      rw [hc.2, if_neg hne]; exact h
    | some hd =>
      have hok : (usr_adc_init d s.w cfgs n out).1 = ESP_OK := hc.1.mpr (by simp [hr])
      rw [hc.2, if_pos hok, h]; simp
  | deinit i =>
    simp only [step]
    cases hl : s.live[i]? with
    | none => exact h
    | some hd =>
      have hi : i < s.live.length := by
        rcases List.getElem?_eq_some_iff.mp hl with ⟨hi, _⟩
        exact hi
      simp only [(usr_adc_deinit_ref_count d s.w hd).2, h, List.length_eraseIdx, hi, if_true]
      omega

/-- Every call keeps `LiveUnitsInitialized`: `usr_adc_init` never clears a flag
and marks the units of the handle it returns; `usr_adc_deinit` clears flags only
when no live handle remains. -/
theorem step_live_units (s : Sys σ) (op : Op) (hs : LiveUnitsInitialized s) :
    LiveUnitsInitialized (step d s op) := by
  refine ⟨step_ref_count d s op hs.1, ?_⟩
  cases op with
  | init cfgs n out =>
    have hold : ∀ h ∈ s.live,
        (h.uses_adc1 = true → (usr_adc_init d s.w cfgs n out).2.2.g_adc1_initialized = true) ∧
        (h.uses_adc2 = true → (usr_adc_init d s.w cfgs n out).2.2.g_adc2_initialized = true) :=
      fun h hh =>
        ⟨fun hu => (usr_adc_init_reuse_adc1 d s.w cfgs n out ((hs.2 h hh).1 hu)).1,
         fun hu => (usr_adc_init_reuse_adc2 d s.w cfgs n out ((hs.2 h hh).2 hu)).1⟩
    simp only [step]
    cases hr : (usr_adc_init d s.w cfgs n out).2.1 with
    | none => exact hold
    | some hd =>
      have hok : (usr_adc_init d s.w cfgs n out).1 = ESP_OK :=
        (usr_adc_init_ref_count d s.w cfgs n out).1.mpr (by simp [hr])
      obtain ⟨⟨cs, rfl⟩, _, _, _⟩ := usr_adc_init_ok_valid d s.w cfgs n out hok
      obtain ⟨h1, h2, h', hh', hu1, hu2, _, _⟩ := usr_adc_init_ok_units d s.w cs n out hok
      have hd_eq : hd = h' := by
        rw [hr] at hh'; exact Option.some.inj hh'
      intro h hmem
      rcases List.mem_append.mp hmem with hm | hm
      · exact hold h hm
      · have : h = h' := by rw [← hd_eq]; simpa using hm
        subst this
        exact ⟨fun hu => h1 (by rw [← hu1]; exact hu), fun hu => h2 (by rw [← hu2]; exact hu)⟩
  | deinit i =>
    simp only [step]
    cases hl : s.live[i]? with
    | none => exact hs.2
    | some hd =>
      have hi : i < s.live.length := (List.getElem?_eq_some_iff.mp hl).1
      have hu := usr_adc_deinit_units d s.w hd
      by_cases h0 : s.w.g_adc_ref_count - 1 = 0
      · have hlen : s.live.length = 1 := by
          have := hs.1; omega
        have hnil : s.live.eraseIdx i = [] := by
          apply List.eq_nil_of_length_eq_zero
          rw [List.length_eraseIdx, if_pos hi, hlen]
        simp only [hnil]
        intro h hmem; simp at hmem
      · intro h hmem
        have hm : h ∈ s.live := List.mem_of_mem_eraseIdx hmem
        simp only [hu.1, hu.2.2.1, h0, false_and, if_false]
        exact hs.2 h hm

theorem initial_live_units (env : σ) : LiveUnitsInitialized (Sys.initial env) := by
  constructor
  · simp [Sys.initial, World.initial]
  · intro h hmem; simp [Sys.initial] at hmem

/-- After any sequence of calls from the initial state, the counter is the
number of live handles and the units of every live handle are initialized. -/
theorem run_live_units (env : σ) (ops : List Op) :
    LiveUnitsInitialized (run d (Sys.initial env) ops) :=
  run_preserves d LiveUnitsInitialized (fun s op h => step_live_units d s op h)
    (Sys.initial env) ops (initial_live_units env)

/-- Under the creation contract every call keeps `FlagsMatchHandles`. -/
theorem step_flags_match (hd : UnitCreationContract d) (s : Sys σ) (op : Op)
    (hs : FlagsMatchHandles s.w) : FlagsMatchHandles (step d s op).w := by
  cases op with
  | init cfgs n out => exact usr_adc_init_flags_match d hd s.w cfgs n out hs
  | deinit i =>
    simp only [step]
    cases hl : s.live[i]? with
    | none => exact hs
    | some h => exact usr_adc_deinit_flags_match d s.w (some h) hs

end Sequences

/-! ## Claims -/

/-- C1: after any sequence of `usr_adc_init` calls (successful or failing) and
`usr_adc_deinit` calls on live handles, started from the initial state, the
usage counter is non-negative and equals the number of live handles; and from
any state, a `usr_adc_init` call that returns `ESP_OK` raises the counter by
exactly one while a failing one leaves it unchanged. -/
theorem C1_ref_count_counts_live_handles {σ : Type} (d : Driver σ) (env : σ)
    (ops : List Op) :
    0 ≤ (run d (Sys.initial env) ops).w.g_adc_ref_count ∧
    (run d (Sys.initial env) ops).w.g_adc_ref_count =
      (run d (Sys.initial env) ops).live.length ∧
    ∀ (w : World σ) (cfgs : Option (List usr_adc_channel_config_t)) (n : Nat) (out : Bool),
      (usr_adc_init d w cfgs n out).2.2.g_adc_ref_count =
        (if (usr_adc_init d w cfgs n out).1 = ESP_OK then w.g_adc_ref_count + 1
         else w.g_adc_ref_count) := by
  have hinv : (run d (Sys.initial env) ops).w.g_adc_ref_count =
      (run d (Sys.initial env) ops).live.length :=
    run_preserves d (fun s => s.w.g_adc_ref_count = s.live.length)
      (fun s op h => step_ref_count d s op h) (Sys.initial env) ops (by
        simp [Sys.initial, World.initial])
  refine ⟨?_, hinv, fun w cfgs n out => (usr_adc_init_ref_count d w cfgs n out).2⟩
  rw [hinv]; exact Int.natCast_nonneg _

/-- C2: whenever `usr_adc_init` succeeds, `usr_adc_deinit` called immediately on
the handle it returned yields `ESP_OK` and brings the usage counter back to the
value it had before the `usr_adc_init` call. -/
theorem C2_init_then_deinit_restores_ref_count {σ : Type} (d : Driver σ) (w : World σ)
    (cfgs : Option (List usr_adc_channel_config_t)) (n : Nat) (out : Bool)
    (hok : (usr_adc_init d w cfgs n out).1 = ESP_OK) :
    (usr_adc_init d w cfgs n out).2.1.isSome = true ∧
    (usr_adc_deinit d (usr_adc_init d w cfgs n out).2.2
        (usr_adc_init d w cfgs n out).2.1).1 = ESP_OK ∧
    (usr_adc_deinit d (usr_adc_init d w cfgs n out).2.2
        (usr_adc_init d w cfgs n out).2.1).2.g_adc_ref_count = w.g_adc_ref_count := by
  have hc := usr_adc_init_ref_count d w cfgs n out
  have hsome := hc.1.mp hok
  obtain ⟨hd, hhd⟩ := Option.isSome_iff_exists.mp hsome
  refine ⟨hsome, ?_, ?_⟩
  · rw [hhd]; exact (usr_adc_deinit_ref_count d _ hd).1
  · rw [hhd, (usr_adc_deinit_ref_count d _ hd).2, hc.2, if_pos hok]; omega

/-- Witness for C2: one channel on unit 1, every platform call succeeding. -/
theorem C2_init_then_deinit_restores_ref_count_witness :
    (usr_adc_init okDriver (World.initial ()) (some [⟨ADC_UNIT_1, 0, 3, 12⟩]) 1 true).1 = ESP_OK ∧
    ((usr_adc_init okDriver (World.initial ()) (some [⟨ADC_UNIT_1, 0, 3, 12⟩]) 1 true).2.1.isSome
        = true ∧
      (usr_adc_deinit okDriver
        (usr_adc_init okDriver (World.initial ()) (some [⟨ADC_UNIT_1, 0, 3, 12⟩]) 1 true).2.2
        (usr_adc_init okDriver (World.initial ()) (some [⟨ADC_UNIT_1, 0, 3, 12⟩]) 1 true).2.1).1
        = ESP_OK ∧
      (usr_adc_deinit okDriver
        (usr_adc_init okDriver (World.initial ()) (some [⟨ADC_UNIT_1, 0, 3, 12⟩]) 1 true).2.2
        (usr_adc_init okDriver (World.initial ()) (some [⟨ADC_UNIT_1, 0, 3, 12⟩]) 1 true).2.1).2.g_adc_ref_count
        = (World.initial ()).g_adc_ref_count) :=
  ⟨by decide, C2_init_then_deinit_restores_ref_count okDriver (World.initial ())
    (some [⟨ADC_UNIT_1, 0, 3, 12⟩]) 1 true (by decide)⟩

/-- C3 (as stated, refuted): with the list [unit 1, unit 2], both units
uninitialized and a driver that fails to create ADC1, `usr_adc_init` returns at
line 89 and never calls the creation of ADC2, although a configuration selects
ADC2 and ADC2 is not initialized. -/
theorem C3_counterexample :
    ¬ (DriverCall.new_unit ADC_UNIT_2 ∈
        (usr_adc_init adc1FailDriver (World.initial ())
          (some [⟨ADC_UNIT_1, 0, 3, 12⟩, ⟨ADC_UNIT_2, 0, 3, 12⟩]) 2 true).2.2.trace ↔
       (selects_unit ADC_UNIT_2 [⟨ADC_UNIT_1, 0, 3, 12⟩, ⟨ADC_UNIT_2, 0, 3, 12⟩] = true ∧
        (World.initial ()).g_adc2_initialized = false)) := by
  decide

/-- C3 (amended): for valid arguments and successful allocations,
`usr_adc_init` makes one creation call for ADC1 if some configuration selects
ADC1 and ADC1 is not initialized, and none otherwise; it makes one creation call
for ADC2 if some configuration selects ADC2, ADC2 is not initialized and the
creation of ADC1 was not attempted or succeeded, and none otherwise.  A unit
that is already initialized keeps its flag and stored handle, and the status of
the call is then decided by the other unit alone.  Two successful calls in a row
that both select ADC1, ADC1 being uninitialized at first, make exactly one
creation call for ADC1 and raise the counter by 2. -/
theorem C3_unit_created_once_when_needed {σ : Type} (d : Driver σ) (w : World σ)
    (cs : List usr_adc_channel_config_t) (n : Nat)
    (hn : n ≠ 0) (halloc : (alloc_handle d w.env).1 = true) :
    (new_unit_calls ADC_UNIT_1 (usr_adc_init d w (some cs) n true).2.2.trace =
      new_unit_calls ADC_UNIT_1 w.trace +
        (if selects_unit ADC_UNIT_1 (cs.take n) = true ∧ w.g_adc1_initialized = false
         then 1 else 0)) ∧
    (new_unit_calls ADC_UNIT_2 (usr_adc_init d w (some cs) n true).2.2.trace =
      new_unit_calls ADC_UNIT_2 w.trace +
        (if selects_unit ADC_UNIT_2 (cs.take n) = true ∧ w.g_adc2_initialized = false ∧
            ¬ (selects_unit ADC_UNIT_1 (cs.take n) = true ∧ w.g_adc1_initialized = false ∧
               (d.adc_oneshot_new_unit (alloc_handle d w.env).2 ADC_UNIT_1).1 ≠ ESP_OK)
         then 1 else 0)) ∧
    (w.g_adc1_initialized = true →
      (usr_adc_init d w (some cs) n true).2.2.g_adc1_initialized = true ∧
      (usr_adc_init d w (some cs) n true).2.2.g_adc1_handle = w.g_adc1_handle ∧
      (usr_adc_init d w (some cs) n true).1 =
        (if selects_unit ADC_UNIT_2 (cs.take n) = true ∧ w.g_adc2_initialized = false
         then (d.adc_oneshot_new_unit (alloc_handle d w.env).2 ADC_UNIT_2).1 else ESP_OK)) ∧
    (w.g_adc2_initialized = true →
      (usr_adc_init d w (some cs) n true).2.2.g_adc2_initialized = true ∧
      (usr_adc_init d w (some cs) n true).2.2.g_adc2_handle = w.g_adc2_handle ∧
      (usr_adc_init d w (some cs) n true).1 =
        (if selects_unit ADC_UNIT_1 (cs.take n) = true ∧ w.g_adc1_initialized = false
         then (d.adc_oneshot_new_unit (alloc_handle d w.env).2 ADC_UNIT_1).1 else ESP_OK)) ∧
    (∀ (cs2 : List usr_adc_channel_config_t) (n2 : Nat) (out2 : Bool),
      w.g_adc1_initialized = false →
      selects_unit ADC_UNIT_1 (cs.take n) = true →
      selects_unit ADC_UNIT_1 (cs2.take n2) = true →
      (usr_adc_init d w (some cs) n true).1 = ESP_OK →
      (usr_adc_init d (usr_adc_init d w (some cs) n true).2.2 (some cs2) n2 out2).1 = ESP_OK →
      new_unit_calls ADC_UNIT_1
          (usr_adc_init d (usr_adc_init d w (some cs) n true).2.2 (some cs2) n2 out2).2.2.trace =
        new_unit_calls ADC_UNIT_1 w.trace + 1 ∧
      (usr_adc_init d (usr_adc_init d w (some cs) n true).2.2
          (some cs2) n2 out2).2.2.g_adc_ref_count = w.g_adc_ref_count + 2) := by
  have hc := usr_adc_init_creation_calls d w cs n hn halloc
  have hs := usr_adc_init_status d w cs n hn halloc
  refine ⟨hc.1, hc.2, ?_, ?_, ?_⟩
  · intro h1
    have hr := usr_adc_init_reuse_adc1 d w (some cs) n true h1
    refine ⟨hr.1, hr.2.1, ?_⟩
    rw [hs]; simp [h1]
  · intro h2
    have hr := usr_adc_init_reuse_adc2 d w (some cs) n true h2
    refine ⟨hr.1, hr.2.1, ?_⟩
    rw [hs]; simp only [h2]
    split_ifs <;> simp_all
  · intro cs2 n2 out2 h0 hsel1 _ hok1 hok2
    have hinit1 := (usr_adc_init_ok_units d w cs n true hok1).1 hsel1
    have hr := usr_adc_init_reuse_adc1 d (usr_adc_init d w (some cs) n true).2.2
      (some cs2) n2 out2 hinit1
    have hcnt1 := (usr_adc_init_ref_count d w (some cs) n true).2
    have hcnt2 := (usr_adc_init_ref_count d (usr_adc_init d w (some cs) n true).2.2
      (some cs2) n2 out2).2
    rw [if_pos hok1] at hcnt1
    rw [if_pos hok2, hcnt1] at hcnt2
    refine ⟨?_, by rw [hcnt2]; ring⟩
    rw [hr.2.2, hc.1]; simp [hsel1, h0]

/-- Witness for C3: the first call creates ADC1 for the list [unit 1, channel 0]
from the initial state; the second call, for [unit 1, channel 3], reuses it. -/
theorem C3_unit_created_once_when_needed_witness :
    ((1 : Nat) ≠ 0 ∧ (alloc_handle okDriver (World.initial ()).env).1 = true) ∧
    new_unit_calls ADC_UNIT_1
      (usr_adc_init okDriver
        (usr_adc_init okDriver (World.initial ()) (some [⟨ADC_UNIT_1, 0, 3, 12⟩]) 1 true).2.2
        (some [⟨ADC_UNIT_1, 3, 3, 12⟩]) 1 true).2.2.trace = 1 ∧
    (usr_adc_init okDriver
        (usr_adc_init okDriver (World.initial ()) (some [⟨ADC_UNIT_1, 0, 3, 12⟩]) 1 true).2.2
        (some [⟨ADC_UNIT_1, 3, 3, 12⟩]) 1 true).2.2.g_adc_ref_count = 2 :=
  ⟨⟨by decide, by decide⟩,
   (C3_unit_created_once_when_needed okDriver (World.initial ()) [⟨ADC_UNIT_1, 0, 3, 12⟩] 1
      (by decide) (by decide)).2.2.2.2 [⟨ADC_UNIT_1, 3, 3, 12⟩] 1 true
      (by decide) (by decide) (by decide) (by decide) (by decide)⟩

/-- C4: `usr_adc_deinit` on a non-`NULL` handle lowers the counter by one.  If
the lowered counter is not zero, both units keep their initialized flags and
stored driver handles and no unit-destruction call is made.  If it is zero, each
unit that is initialized and used by the handle is destroyed through the driver
(one destruction call with its stored handle, ADC1 before ADC2), its flag is
cleared and its stored handle is set to `NULL`; no other destruction call is
made. -/
theorem C4_units_torn_down_only_at_zero {σ : Type} (d : Driver σ) (w : World σ)
    (h : usr_adc_handle_s) :
    (usr_adc_deinit d w (some h)).2.g_adc_ref_count = w.g_adc_ref_count - 1 ∧
    ((usr_adc_deinit d w (some h)).2.g_adc_ref_count ≠ 0 →
      (usr_adc_deinit d w (some h)).2.g_adc1_initialized = w.g_adc1_initialized ∧
      (usr_adc_deinit d w (some h)).2.g_adc1_handle = w.g_adc1_handle ∧
      (usr_adc_deinit d w (some h)).2.g_adc2_initialized = w.g_adc2_initialized ∧
      (usr_adc_deinit d w (some h)).2.g_adc2_handle = w.g_adc2_handle ∧
      del_unit_log (usr_adc_deinit d w (some h)).2.trace = del_unit_log w.trace) ∧
    ((usr_adc_deinit d w (some h)).2.g_adc_ref_count = 0 →
      (w.g_adc1_initialized = true ∧ h.uses_adc1 = true →
        (usr_adc_deinit d w (some h)).2.g_adc1_initialized = false ∧
        (usr_adc_deinit d w (some h)).2.g_adc1_handle = 0) ∧
      (w.g_adc2_initialized = true ∧ h.uses_adc2 = true →
        (usr_adc_deinit d w (some h)).2.g_adc2_initialized = false ∧
        (usr_adc_deinit d w (some h)).2.g_adc2_handle = 0) ∧
      del_unit_log (usr_adc_deinit d w (some h)).2.trace =
        del_unit_log w.trace ++
          (if w.g_adc1_initialized = true ∧ h.uses_adc1 = true then [w.g_adc1_handle] else []) ++
          (if w.g_adc2_initialized = true ∧ h.uses_adc2 = true
           then [w.g_adc2_handle] else [])) := by
  have hc := (usr_adc_deinit_ref_count d w h).2
  have hu := usr_adc_deinit_units d w h
  refine ⟨hc, ?_, ?_⟩
  · intro hnz
    rw [hc] at hnz
    rw [hu.1, hu.2.1, hu.2.2.1, hu.2.2.2.1, hu.2.2.2.2]
    simp [hnz]
  · intro hz
    rw [hc] at hz
    rw [hu.1, hu.2.1, hu.2.2.1, hu.2.2.2.1, hu.2.2.2.2]
    refine ⟨fun a1 => by simp [hz, a1], fun a2 => by simp [hz, a2], by simp [hz]⟩

/-- Witness for C4: the last handle, which uses ADC1 only, is released while
both units are initialized; ADC1 is destroyed, ADC2 is not. -/
theorem C4_units_torn_down_only_at_zero_witness :
    (usr_adc_deinit okDriver
      { g_adc1_initialized := true, g_adc2_initialized := true, g_adc1_handle := 100,
        g_adc2_handle := 101, g_adc_ref_count := 1, env := (), trace := [] }
      (some { uses_adc1 := true, uses_adc2 := false, cali_handles := [7], cali_handle_num := 1,
              channel_configs := [⟨ADC_UNIT_1, 0, 3, 12⟩], channel_num := 1 })).2.g_adc_ref_count
      = 0 ∧
    del_unit_log (usr_adc_deinit okDriver
      { g_adc1_initialized := true, g_adc2_initialized := true, g_adc1_handle := 100,
        g_adc2_handle := 101, g_adc_ref_count := 1, env := (), trace := [] }
      (some { uses_adc1 := true, uses_adc2 := false, cali_handles := [7], cali_handle_num := 1,
              channel_configs := [⟨ADC_UNIT_1, 0, 3, 12⟩], channel_num := 1 })).2.trace
      = [100] :=
  ⟨by decide,
   ((C4_units_torn_down_only_at_zero okDriver
      { g_adc1_initialized := true, g_adc2_initialized := true, g_adc1_handle := 100,
        g_adc2_handle := 101, g_adc_ref_count := 1, env := (), trace := [] }
      { uses_adc1 := true, uses_adc2 := false, cali_handles := [7], cali_handle_num := 1,
        channel_configs := [⟨ADC_UNIT_1, 0, 3, 12⟩], channel_num := 1 }).2.2 (by decide)).2.2⟩

/-- C5 (the code at the failing input): after the calls of `two_consumers_ops`
on a platform where everything succeeds, the last `usr_adc_deinit` brought the
counter from 1 to 0 and no handle is live.  The guard `handle->uses_adc1` of
line 245 skipped ADC1, which the released handle did not use: the only unit
destruction made is the one of ADC2 (handle `101`), ADC1 is still marked
initialized with its driver handle `100` stored, and a following
`usr_adc_init` that selects ADC1 makes no creation call for it.  The claim
requires both units to be uninitialized at that point. -/
theorem C5_ref_count_zero_leaves_adc1_initialized :
    (run okDriver (Sys.initial ()) (two_consumers_ops.take 3)).w.g_adc_ref_count = 1 ∧
    (run okDriver (Sys.initial ()) two_consumers_ops).w.g_adc_ref_count = 0 ∧
    (run okDriver (Sys.initial ()) two_consumers_ops).live = [] ∧
    del_unit_log (run okDriver (Sys.initial ()) two_consumers_ops).w.trace = [101] ∧
    (run okDriver (Sys.initial ()) two_consumers_ops).w.g_adc1_initialized = true ∧
    (run okDriver (Sys.initial ()) two_consumers_ops).w.g_adc1_handle = 100 ∧
    new_unit_calls ADC_UNIT_1
      (usr_adc_init okDriver (run okDriver (Sys.initial ()) two_consumers_ops).w
        (some [⟨ADC_UNIT_1, 0, 3, 12⟩]) 1 true).2.2.trace =
      new_unit_calls ADC_UNIT_1 (run okDriver (Sys.initial ()) two_consumers_ops).w.trace := by
  decide

/-- What the teardown of lines 243-258 does achieve: in every state reached from
the initial state by `usr_adc_init` calls and `usr_adc_deinit` calls on live
handles, when a `usr_adc_deinit` on a live handle brings the counter to zero,
every unit that the released handle used is uninitialized afterwards (flag
false, stored handle `NULL`), and a following successful `usr_adc_init` makes
one creation call for each such unit that it selects.  Units the released
handle did not use are not covered. -/
theorem deinit_to_zero_clears_units_of_released_handle {σ : Type} (d : Driver σ) (env : σ) (ops : List Op)
    (i : Nat) (h : usr_adc_handle_s)
    (hlive : (run d (Sys.initial env) ops).live[i]? = some h)
    (hzero : (usr_adc_deinit d (run d (Sys.initial env) ops).w (some h)).2.g_adc_ref_count = 0) :
    (h.uses_adc1 = true →
      (usr_adc_deinit d (run d (Sys.initial env) ops).w (some h)).2.g_adc1_initialized = false ∧
      (usr_adc_deinit d (run d (Sys.initial env) ops).w (some h)).2.g_adc1_handle = 0) ∧
    (h.uses_adc2 = true →
      (usr_adc_deinit d (run d (Sys.initial env) ops).w (some h)).2.g_adc2_initialized = false ∧
      (usr_adc_deinit d (run d (Sys.initial env) ops).w (some h)).2.g_adc2_handle = 0) ∧
    (∀ (cs : List usr_adc_channel_config_t) (n : Nat) (out : Bool),
      (usr_adc_init d (usr_adc_deinit d (run d (Sys.initial env) ops).w (some h)).2
        (some cs) n out).1 = ESP_OK →
      (h.uses_adc1 = true → selects_unit ADC_UNIT_1 (cs.take n) = true →
        new_unit_calls ADC_UNIT_1
          (usr_adc_init d (usr_adc_deinit d (run d (Sys.initial env) ops).w (some h)).2
            (some cs) n out).2.2.trace =
        new_unit_calls ADC_UNIT_1
          (usr_adc_deinit d (run d (Sys.initial env) ops).w (some h)).2.trace + 1) ∧
      (h.uses_adc2 = true → selects_unit ADC_UNIT_2 (cs.take n) = true →
        new_unit_calls ADC_UNIT_2
          (usr_adc_init d (usr_adc_deinit d (run d (Sys.initial env) ops).w (some h)).2
            (some cs) n out).2.2.trace =
        new_unit_calls ADC_UNIT_2
          (usr_adc_deinit d (run d (Sys.initial env) ops).w (some h)).2.trace + 1)) := by
  have hinv := run_live_units d env ops
  have hmem : h ∈ (run d (Sys.initial env) ops).live := List.getElem?_mem hlive
  have hused := hinv.2 h hmem
  have hc := (usr_adc_deinit_ref_count d (run d (Sys.initial env) ops).w h).2
  rw [hc] at hzero
  have hu := usr_adc_deinit_units d (run d (Sys.initial env) ops).w h
  have hA : h.uses_adc1 = true →
      (usr_adc_deinit d (run d (Sys.initial env) ops).w (some h)).2.g_adc1_initialized = false ∧
      (usr_adc_deinit d (run d (Sys.initial env) ops).w (some h)).2.g_adc1_handle = 0 := by
    intro h1
    rw [hu.1, hu.2.1]; simp [hzero, h1, hused.1 h1]
  have hB : h.uses_adc2 = true →
      (usr_adc_deinit d (run d (Sys.initial env) ops).w (some h)).2.g_adc2_initialized = false ∧
      (usr_adc_deinit d (run d (Sys.initial env) ops).w (some h)).2.g_adc2_handle = 0 := by
    intro h2
    rw [hu.2.2.1, hu.2.2.2.1]; simp [hzero, h2, hused.2 h2]
  refine ⟨hA, hB, ?_⟩
  intro cs n out hok
  obtain ⟨_, hn, rfl, halloc⟩ := usr_adc_init_ok_valid d _ (some cs) n out hok
  have hcalls := usr_adc_init_creation_calls d
    (usr_adc_deinit d (run d (Sys.initial env) ops).w (some h)).2 cs n hn halloc
  have hst := usr_adc_init_status d
    (usr_adc_deinit d (run d (Sys.initial env) ops).w (some h)).2 cs n hn halloc
  rw [hok] at hst
  constructor
  · intro h1 hs1
    rw [hcalls.1]; simp [hs1, (hA h1).1]
  · intro h2 hs2
    rw [hcalls.2]
    have hcond : ¬ (selects_unit ADC_UNIT_1 (cs.take n) = true ∧
        (usr_adc_deinit d (run d (Sys.initial env) ops).w (some h)).2.g_adc1_initialized = false ∧
        (d.adc_oneshot_new_unit
          (alloc_handle d (usr_adc_deinit d (run d (Sys.initial env) ops).w (some h)).2.env).2
          ADC_UNIT_1).1 ≠ ESP_OK) := by
      rintro ⟨a, b, c⟩
      rw [if_pos ⟨a, b⟩, if_pos c] at hst
      exact c hst.symm
    rw [if_pos ⟨hs2, (hB h2).1, hcond⟩]

/-- An instance of `deinit_to_zero_clears_units_of_released_handle`: one
consumer on ADC1 acquires and releases; ADC1 is uninitialized afterwards. -/
theorem deinit_to_zero_clears_units_of_released_handle_instance :
    ((run okDriver (Sys.initial ()) [Op.init (some [⟨ADC_UNIT_1, 0, 3, 12⟩]) 1 true]).live[0]? =
      some { uses_adc1 := true, uses_adc2 := false, cali_handles := [7], cali_handle_num := 1,
             channel_configs := [⟨ADC_UNIT_1, 0, 3, 12⟩], channel_num := 1 }) ∧
    (usr_adc_deinit okDriver
      (run okDriver (Sys.initial ()) [Op.init (some [⟨ADC_UNIT_1, 0, 3, 12⟩]) 1 true]).w
      (some { uses_adc1 := true, uses_adc2 := false, cali_handles := [7], cali_handle_num := 1,
              channel_configs := [⟨ADC_UNIT_1, 0, 3, 12⟩], channel_num := 1 })).2.g_adc1_initialized
      = false ∧
    (usr_adc_deinit okDriver
      (run okDriver (Sys.initial ()) [Op.init (some [⟨ADC_UNIT_1, 0, 3, 12⟩]) 1 true]).w
      (some { uses_adc1 := true, uses_adc2 := false, cali_handles := [7], cali_handle_num := 1,
              channel_configs := [⟨ADC_UNIT_1, 0, 3, 12⟩], channel_num := 1 })).2.g_adc1_handle
      = 0 :=
  ⟨by decide,
   (deinit_to_zero_clears_units_of_released_handle okDriver () [Op.init (some [⟨ADC_UNIT_1, 0, 3, 12⟩]) 1 true] 0
      { uses_adc1 := true, uses_adc2 := false, cali_handles := [7], cali_handle_num := 1,
        channel_configs := [⟨ADC_UNIT_1, 0, 3, 12⟩], channel_num := 1 }
      (by decide) (by decide)).1 rfl⟩

/-- C6: let `h` be a handle returned by `usr_adc_init` and `unit` be ADC1 or
ADC2.  If no configuration in the handle's list selects `unit`, then in every
state, whether or not `unit` is marked initialized, `usr_adc_read_raw` on `h`
with a non-`NULL` output returns `ESP_ERR_INVALID_STATE`, stores no sample and
leaves the world, the driver call log included, as it was: no driver read is
made. -/
theorem C6_read_raw_unused_unit_invalid_state {σ : Type} (d : Driver σ) (w : World σ)
    (cfgs : Option (List usr_adc_channel_config_t)) (n : Nat) (out : Bool)
    (h : usr_adc_handle_s) (hh : (usr_adc_init d w cfgs n out).2.1 = some h)
    (unit : adc_unit_t) (hunit : unit = ADC_UNIT_1 ∨ unit = ADC_UNIT_2)
    (hnot : ∀ c ∈ h.channel_configs, c.unit ≠ unit)
    (w2 : World σ) (channel : Int) :
    usr_adc_read_raw d w2 (some h) unit channel true = (ESP_ERR_INVALID_STATE, none, w2) := by
  have huses := usr_adc_init_handle_uses d w cfgs n out h hh
  have hsel : selects_unit unit h.channel_configs = false := by
    simp only [selects_unit, List.any_eq_false, decide_eq_true_eq]
    exact hnot
  have h21 : ¬ ADC_UNIT_2 = ADC_UNIT_1 := by decide
  rcases hunit with rfl | rfl
  · simp [usr_adc_read_raw, huses.1, hsel]
  · simp [usr_adc_read_raw, huses.2, hsel, h21]

/-- Witness for C6: a handle built from one ADC1 channel is read on ADC2 while
ADC2 is marked initialized. -/
theorem C6_read_raw_unused_unit_invalid_state_witness :
    usr_adc_read_raw okDriver
      { g_adc1_initialized := true, g_adc2_initialized := true, g_adc1_handle := 100,
        g_adc2_handle := 101, g_adc_ref_count := 2, env := (), trace := [] }
      (some { uses_adc1 := true, uses_adc2 := false, cali_handles := [7], cali_handle_num := 1,
              channel_configs := [⟨ADC_UNIT_1, 0, 3, 12⟩], channel_num := 1 })
      ADC_UNIT_2 0 true =
    (ESP_ERR_INVALID_STATE, none,
      { g_adc1_initialized := true, g_adc2_initialized := true, g_adc1_handle := 100,
        g_adc2_handle := 101, g_adc_ref_count := 2, env := (), trace := [] }) :=
  C6_read_raw_unused_unit_invalid_state okDriver (World.initial ())
    (some [⟨ADC_UNIT_1, 0, 3, 12⟩]) 1 true
    { uses_adc1 := true, uses_adc2 := false, cali_handles := [7], cali_handle_num := 1,
      channel_configs := [⟨ADC_UNIT_1, 0, 3, 12⟩], channel_num := 1 }
    (by decide) ADC_UNIT_2 (Or.inr rfl) (by decide)
    { g_adc1_initialized := true, g_adc2_initialized := true, g_adc1_handle := 100,
      g_adc2_handle := 101, g_adc_ref_count := 2, env := (), trace := [] } 0

/-- C7: if `usr_adc_read_raw` fails with status `e` for some handle, unit,
channel, output pointer and state, then `usr_adc_read_voltage` with the same
arguments returns exactly `e`, stores no voltage, leaves the state the raw read
leaves, and makes no call to the raw-to-voltage conversion. -/
theorem C7_read_voltage_propagates_read_raw_failure {σ : Type} (d : Driver σ) (w : World σ)
    (handle : Option usr_adc_handle_s) (unit : adc_unit_t) (channel : Int) (out : Bool)
    (raw_value : Int)
    (hfail : (usr_adc_read_raw d w handle unit channel out).1 ≠ ESP_OK) :
    usr_adc_read_voltage d w handle unit channel out raw_value =
      ((usr_adc_read_raw d w handle unit channel out).1, none,
       (usr_adc_read_raw d w handle unit channel out).2.2) ∧
    raw_to_voltage_calls
        (usr_adc_read_voltage d w handle unit channel out raw_value).2.2.trace =
      raw_to_voltage_calls w.trace := by
  have hmain : usr_adc_read_voltage d w handle unit channel out raw_value =
      ((usr_adc_read_raw d w handle unit channel out).1, none,
       (usr_adc_read_raw d w handle unit channel out).2.2) := by
    cases handle with
    | none => rfl
    | some h =>
      cases out with
      | false => simp [usr_adc_read_voltage, usr_adc_read_raw]
      | true =>
        simp only [usr_adc_read_voltage]
        rw [if_neg (by simp), if_pos hfail]
  refine ⟨hmain, ?_⟩
  rw [hmain]
  exact usr_adc_read_raw_no_conversion d w handle unit channel out

/-- Witness for C7: reading ADC2 through a handle that uses only ADC1 fails
with `ESP_ERR_INVALID_STATE` in both functions. -/
theorem C7_read_voltage_propagates_read_raw_failure_witness :
    (usr_adc_read_raw okDriver
      { g_adc1_initialized := true, g_adc2_initialized := true, g_adc1_handle := 100,
        g_adc2_handle := 101, g_adc_ref_count := 2, env := (), trace := [] }
      (some { uses_adc1 := true, uses_adc2 := false, cali_handles := [7], cali_handle_num := 1,
              channel_configs := [⟨ADC_UNIT_1, 0, 3, 12⟩], channel_num := 1 })
      ADC_UNIT_2 0 true).1 ≠ ESP_OK ∧
    (usr_adc_read_voltage okDriver
      { g_adc1_initialized := true, g_adc2_initialized := true, g_adc1_handle := 100,
        g_adc2_handle := 101, g_adc_ref_count := 2, env := (), trace := [] }
      (some { uses_adc1 := true, uses_adc2 := false, cali_handles := [7], cali_handle_num := 1,
              channel_configs := [⟨ADC_UNIT_1, 0, 3, 12⟩], channel_num := 1 })
      ADC_UNIT_2 0 true 0).1 = ESP_ERR_INVALID_STATE :=
  ⟨by decide,
   congrArg Prod.fst (C7_read_voltage_propagates_read_raw_failure okDriver
      { g_adc1_initialized := true, g_adc2_initialized := true, g_adc1_handle := 100,
        g_adc2_handle := 101, g_adc_ref_count := 2, env := (), trace := [] }
      (some { uses_adc1 := true, uses_adc2 := false, cali_handles := [7], cali_handle_num := 1,
              channel_configs := [⟨ADC_UNIT_1, 0, 3, 12⟩], channel_num := 1 })
      ADC_UNIT_2 0 true 0 (by decide)).1⟩

/-- C8 (as stated, refuted): on a platform whose conversion reports
`ESP_ERR_NOT_FOUND`, a handle is acquired for (unit 1, channel 0) and its
calibration context `7` is stored; the raw read of (unit 1, channel 0)
succeeds, a calibration context exists for the pair, and yet
`usr_adc_read_voltage` returns `ESP_ERR_NOT_FOUND`, the status of the
conversion at line 218. -/
theorem C8_counterexample :
    (usr_adc_init conversionNotFoundDriver (World.initial ())
        (some [⟨ADC_UNIT_1, 0, 3, 12⟩]) 1 true).2.1 =
      some { uses_adc1 := true, uses_adc2 := false, cali_handles := [7], cali_handle_num := 1,
             channel_configs := [⟨ADC_UNIT_1, 0, 3, 12⟩], channel_num := 1 } ∧
    (usr_adc_read_raw conversionNotFoundDriver
        (usr_adc_init conversionNotFoundDriver (World.initial ())
          (some [⟨ADC_UNIT_1, 0, 3, 12⟩]) 1 true).2.2
        (some { uses_adc1 := true, uses_adc2 := false, cali_handles := [7], cali_handle_num := 1,
                channel_configs := [⟨ADC_UNIT_1, 0, 3, 12⟩], channel_num := 1 })
        ADC_UNIT_1 0 true).1 = ESP_OK ∧
    ¬ ((usr_adc_read_voltage conversionNotFoundDriver
        (usr_adc_init conversionNotFoundDriver (World.initial ())
          (some [⟨ADC_UNIT_1, 0, 3, 12⟩]) 1 true).2.2
        (some { uses_adc1 := true, uses_adc2 := false, cali_handles := [7], cali_handle_num := 1,
                channel_configs := [⟨ADC_UNIT_1, 0, 3, 12⟩], channel_num := 1 })
        ADC_UNIT_1 0 true 0).1 = ESP_ERR_NOT_FOUND ↔
      no_cali_context
        { uses_adc1 := true, uses_adc2 := false, cali_handles := [7], cali_handle_num := 1,
          channel_configs := [⟨ADC_UNIT_1, 0, 3, 12⟩], channel_num := 1 } ADC_UNIT_1 0) := by
  refine ⟨by decide, by decide, ?_⟩
  rw [no_cali_context_iff]
  decide

/-- C8 (amended): when the raw read succeeds, `usr_adc_read_voltage` returns
`ESP_ERR_NOT_FOUND`, storing nothing and calling no conversion, if no
calibration context exists for the pair (no configuration entry of the handle
has exactly that unit and channel, or the first such entry has an absent
context); if a context exists it returns the status of the raw-to-voltage
conversion with that context.  Hence it returns `ESP_ERR_NOT_FOUND` if and only
if no context exists for the pair or the conversion itself reports
`ESP_ERR_NOT_FOUND`. -/
theorem C8_read_voltage_not_found {σ : Type} (d : Driver σ) (w : World σ)
    (h : usr_adc_handle_s) (unit : adc_unit_t) (channel : Int) (raw_value : Int)
    (hraw : (usr_adc_read_raw d w (some h) unit channel true).1 = ESP_OK) :
    (no_cali_context h unit channel →
      usr_adc_read_voltage d w (some h) unit channel true raw_value =
        (ESP_ERR_NOT_FOUND, none, (usr_adc_read_raw d w (some h) unit channel true).2.2)) ∧
    (¬ no_cali_context h unit channel →
      (usr_adc_read_voltage d w (some h) unit channel true raw_value).1 =
        (d.adc_cali_raw_to_voltage (usr_adc_read_raw d w (some h) unit channel true).2.2.env
          (find_cali_handle h.cali_handles unit channel
            (h.channel_configs.take h.channel_num) 0)
          ((usr_adc_read_raw d w (some h) unit channel true).2.1.getD raw_value)).1) ∧
    ((usr_adc_read_voltage d w (some h) unit channel true raw_value).1 = ESP_ERR_NOT_FOUND ↔
      (no_cali_context h unit channel ∨
       (d.adc_cali_raw_to_voltage (usr_adc_read_raw d w (some h) unit channel true).2.2.env
          (find_cali_handle h.cali_handles unit channel
            (h.channel_configs.take h.channel_num) 0)
          ((usr_adc_read_raw d w (some h) unit channel true).2.1.getD raw_value)).1 =
        ESP_ERR_NOT_FOUND)) := by
  have hv := usr_adc_read_voltage_of_read_ok d w h unit channel raw_value hraw
  have hiff := no_cali_context_iff h unit channel
  refine ⟨?_, ?_, ?_⟩
  · intro hno
    rw [hv, if_pos (hiff.mp hno)]
  · intro hctx
    rw [hv, if_neg (fun hz => hctx (hiff.mpr hz))]
  · by_cases hno : no_cali_context h unit channel
    · rw [hv, if_pos (hiff.mp hno)]
      simp [hno]
    · rw [hv, if_neg (fun hz => hno (hiff.mpr hz))]
      simp [hno]

/-- Witness for C8: a handle that registered (unit 1, channel 0) and (unit 1,
channel 3) is read at (unit 1, channel 5); the raw read succeeds and the result
is `ESP_ERR_NOT_FOUND`. -/
theorem C8_read_voltage_not_found_witness :
    (usr_adc_init okDriver (World.initial ())
        (some [⟨ADC_UNIT_1, 0, 3, 12⟩, ⟨ADC_UNIT_1, 3, 3, 12⟩]) 2 true).2.1 =
      some { uses_adc1 := true, uses_adc2 := false, cali_handles := [7, 7],
             cali_handle_num := 2,
             channel_configs := [⟨ADC_UNIT_1, 0, 3, 12⟩, ⟨ADC_UNIT_1, 3, 3, 12⟩],
             channel_num := 2 } ∧
    (usr_adc_read_voltage okDriver
        (usr_adc_init okDriver (World.initial ())
          (some [⟨ADC_UNIT_1, 0, 3, 12⟩, ⟨ADC_UNIT_1, 3, 3, 12⟩]) 2 true).2.2
        (some { uses_adc1 := true, uses_adc2 := false, cali_handles := [7, 7],
                cali_handle_num := 2,
                channel_configs := [⟨ADC_UNIT_1, 0, 3, 12⟩, ⟨ADC_UNIT_1, 3, 3, 12⟩],
                channel_num := 2 })
        ADC_UNIT_1 5 true 0).1 = ESP_ERR_NOT_FOUND :=
  ⟨by decide,
   congrArg Prod.fst ((C8_read_voltage_not_found okDriver
      (usr_adc_init okDriver (World.initial ())
        (some [⟨ADC_UNIT_1, 0, 3, 12⟩, ⟨ADC_UNIT_1, 3, 3, 12⟩]) 2 true).2.2
      { uses_adc1 := true, uses_adc2 := false, cali_handles := [7, 7], cali_handle_num := 2,
        channel_configs := [⟨ADC_UNIT_1, 0, 3, 12⟩, ⟨ADC_UNIT_1, 3, 3, 12⟩], channel_num := 2 }
      ADC_UNIT_1 5 0 (by decide)).1 (Or.inl (by decide)))⟩

/-- C9: for valid arguments and successful allocations.  If ADC1 is needed and
not initialized and the driver fails to create it, `usr_adc_init` returns the
driver's status, stores no handle, leaves the counter and leaves ADC1 marked
uninitialized.  If the creation of ADC1 was not attempted or succeeded, ADC2 is
needed and not initialized and the driver fails to create it, `usr_adc_init`
returns the driver's status, stores no handle, leaves the counter, leaves ADC2
marked uninitialized, and an ADC1 created earlier in the same call stays marked
initialized with the handle the driver stored for it. -/
theorem C9_unit_creation_failure {σ : Type} (d : Driver σ) (w : World σ)
    (cs : List usr_adc_channel_config_t) (n : Nat)
    (hn : n ≠ 0) (halloc : (alloc_handle d w.env).1 = true) :
    (selects_unit ADC_UNIT_1 (cs.take n) = true → w.g_adc1_initialized = false →
      (d.adc_oneshot_new_unit (alloc_handle d w.env).2 ADC_UNIT_1).1 ≠ ESP_OK →
      (usr_adc_init d w (some cs) n true).1 =
        (d.adc_oneshot_new_unit (alloc_handle d w.env).2 ADC_UNIT_1).1 ∧
      (usr_adc_init d w (some cs) n true).2.1 = none ∧
      (usr_adc_init d w (some cs) n true).2.2.g_adc_ref_count = w.g_adc_ref_count ∧
      (usr_adc_init d w (some cs) n true).2.2.g_adc1_initialized = false) ∧
    (selects_unit ADC_UNIT_2 (cs.take n) = true → w.g_adc2_initialized = false →
      ¬ (selects_unit ADC_UNIT_1 (cs.take n) = true ∧ w.g_adc1_initialized = false ∧
          (d.adc_oneshot_new_unit (alloc_handle d w.env).2 ADC_UNIT_1).1 ≠ ESP_OK) →
      (d.adc_oneshot_new_unit
          (if selects_unit ADC_UNIT_1 (cs.take n) = true ∧ w.g_adc1_initialized = false
           then (d.adc_oneshot_new_unit (alloc_handle d w.env).2 ADC_UNIT_1).2.2
           else (alloc_handle d w.env).2) ADC_UNIT_2).1 ≠ ESP_OK →
      (usr_adc_init d w (some cs) n true).1 =
        (d.adc_oneshot_new_unit
          (if selects_unit ADC_UNIT_1 (cs.take n) = true ∧ w.g_adc1_initialized = false
           then (d.adc_oneshot_new_unit (alloc_handle d w.env).2 ADC_UNIT_1).2.2
           else (alloc_handle d w.env).2) ADC_UNIT_2).1 ∧
      (usr_adc_init d w (some cs) n true).2.1 = none ∧
      (usr_adc_init d w (some cs) n true).2.2.g_adc_ref_count = w.g_adc_ref_count ∧
      (usr_adc_init d w (some cs) n true).2.2.g_adc2_initialized = false ∧
      (selects_unit ADC_UNIT_1 (cs.take n) = true ∧ w.g_adc1_initialized = false →
        (usr_adc_init d w (some cs) n true).2.2.g_adc1_initialized = true ∧
        (usr_adc_init d w (some cs) n true).2.2.g_adc1_handle =
          (d.adc_oneshot_new_unit (alloc_handle d w.env).2 ADC_UNIT_1).2.1.getD
            w.g_adc1_handle)) := by
  have hs := usr_adc_init_status d w cs n hn halloc
  have hu := usr_adc_init_units d w cs n hn halloc
  have hc := usr_adc_init_ref_count d w (some cs) n true
  have hnone : (usr_adc_init d w (some cs) n true).1 ≠ ESP_OK →
      (usr_adc_init d w (some cs) n true).2.1 = none ∧
      (usr_adc_init d w (some cs) n true).2.2.g_adc_ref_count = w.g_adc_ref_count := by
    intro hne
    refine ⟨?_, by rw [hc.2, if_neg hne]⟩
    cases hr : (usr_adc_init d w (some cs) n true).2.1 with
    | none => rfl
    | some hd => exact absurd (hc.1.mpr (by simp [hr])) hne
  constructor
  · intro h1 hi1 hfail
    have hst : (usr_adc_init d w (some cs) n true).1 =
        (d.adc_oneshot_new_unit (alloc_handle d w.env).2 ADC_UNIT_1).1 := by
      rw [hs, if_pos ⟨h1, hi1⟩, if_pos hfail]
    have hne : (usr_adc_init d w (some cs) n true).1 ≠ ESP_OK := by rw [hst]; exact hfail
    refine ⟨hst, (hnone hne).1, (hnone hne).2, ?_⟩
    rw [hu.2.1, (init_adc1_unit d _ _).1, scan_units_selects]
    simp [h1, hi1, hfail]
  · intro h2 hi2 hA hfail
    by_cases hA1 : selects_unit ADC_UNIT_1 (cs.take n) = true ∧ w.g_adc1_initialized = false
    · have hok1 : (d.adc_oneshot_new_unit (alloc_handle d w.env).2 ADC_UNIT_1).1 = ESP_OK := by
        by_contra hne
        exact hA ⟨hA1.1, hA1.2, hne⟩
      rw [if_pos hA1] at hfail ⊢
      have hst : (usr_adc_init d w (some cs) n true).1 =
          (d.adc_oneshot_new_unit
            (d.adc_oneshot_new_unit (alloc_handle d w.env).2 ADC_UNIT_1).2.2 ADC_UNIT_2).1 := by
        rw [hs, if_pos hA1, if_neg (by simp [hok1]), if_pos ⟨h2, hi2⟩]
      have hne : (usr_adc_init d w (some cs) n true).1 ≠ ESP_OK := by rw [hst]; exact hfail
      refine ⟨hst, (hnone hne).1, (hnone hne).2, ?_, ?_⟩
      · rw [hu.2.2.2.1, (init_adc2_unit d _ _).1, init_adc1_status, init_adc1_env,
          scan_units_selects, (init_adc1_adc2 d _ _).1]
        simp [hA1, hok1, h2, hi2, hfail]
      · intro _
        rw [hu.2.1, hu.2.2.1, (init_adc1_unit d _ _).1, (init_adc1_unit d _ _).2,
          scan_units_selects]
        simp [hA1, hok1]
    · rw [if_neg hA1] at hfail ⊢
      have hst : (usr_adc_init d w (some cs) n true).1 =
          (d.adc_oneshot_new_unit (alloc_handle d w.env).2 ADC_UNIT_2).1 := by
        rw [hs, if_neg hA1, if_pos ⟨h2, hi2⟩]
      have hne : (usr_adc_init d w (some cs) n true).1 ≠ ESP_OK := by rw [hst]; exact hfail
      refine ⟨hst, (hnone hne).1, (hnone hne).2, ?_, fun h => absurd h hA1⟩
      rw [hu.2.2.2.1, (init_adc2_unit d _ _).1, init_adc1_status, init_adc1_env,
        scan_units_selects, (init_adc1_adc2 d _ _).1]
      simp [hA1, h2, hi2, hfail]

/-- Witness for C9: the list selects both units, the driver creates ADC1
(handle 100) and fails on ADC2 with `ESP_FAIL`; the call returns `ESP_FAIL` and
ADC1 stays initialized with handle 100. -/
theorem C9_unit_creation_failure_witness :
    ((2 : Nat) ≠ 0 ∧ (alloc_handle adc2FailDriver (World.initial ()).env).1 = true) ∧
    (usr_adc_init adc2FailDriver (World.initial ())
      (some [⟨ADC_UNIT_1, 0, 3, 12⟩, ⟨ADC_UNIT_2, 0, 3, 12⟩]) 2 true).1 = ESP_FAIL ∧
    (usr_adc_init adc2FailDriver (World.initial ())
      (some [⟨ADC_UNIT_1, 0, 3, 12⟩, ⟨ADC_UNIT_2, 0, 3, 12⟩]) 2 true).2.1 = none ∧
    (usr_adc_init adc2FailDriver (World.initial ())
      (some [⟨ADC_UNIT_1, 0, 3, 12⟩, ⟨ADC_UNIT_2, 0, 3, 12⟩]) 2 true).2.2.g_adc_ref_count = 0 ∧
    (usr_adc_init adc2FailDriver (World.initial ())
      (some [⟨ADC_UNIT_1, 0, 3, 12⟩, ⟨ADC_UNIT_2, 0, 3, 12⟩]) 2 true).2.2.g_adc2_initialized
      = false ∧
    ((usr_adc_init adc2FailDriver (World.initial ())
      (some [⟨ADC_UNIT_1, 0, 3, 12⟩, ⟨ADC_UNIT_2, 0, 3, 12⟩]) 2 true).2.2.g_adc1_initialized
      = true ∧
     (usr_adc_init adc2FailDriver (World.initial ())
      (some [⟨ADC_UNIT_1, 0, 3, 12⟩, ⟨ADC_UNIT_2, 0, 3, 12⟩]) 2 true).2.2.g_adc1_handle = 100) :=
  have hB := (C9_unit_creation_failure adc2FailDriver (World.initial ())
    [⟨ADC_UNIT_1, 0, 3, 12⟩, ⟨ADC_UNIT_2, 0, 3, 12⟩] 2 (by decide) (by decide)).2
    (by decide) (by decide) (by decide) (by decide)
  ⟨⟨by decide, by decide⟩, hB.1, hB.2.1, hB.2.2.1, hB.2.2.2.1, hB.2.2.2.2 (by decide)⟩

/-- C10 (as stated, refuted): on a platform whose calibration scheme creation
reports `ESP_FAIL` but stores the handle `9`, `usr_adc_init` for the single
entry (unit 1, channel 0) succeeds and the creation at index 0 failed, yet the
context recorded at index 0 of the handle is `9`, not absent: line 150 stores
whatever the creation left in `cali_handle`. -/
theorem C10_counterexample :
    (caliFailStoresDriver.adc_cali_create_scheme () ADC_UNIT_1 3 12).1 ≠ ESP_OK ∧
    usr_adc_init caliFailStoresDriver (World.initial ()) (some [⟨ADC_UNIT_1, 0, 3, 12⟩]) 1 true =
      (ESP_OK,
       some { uses_adc1 := true, uses_adc2 := false, cali_handles := [9], cali_handle_num := 1,
              channel_configs := [⟨ADC_UNIT_1, 0, 3, 12⟩], channel_num := 1 },
       { g_adc1_initialized := true, g_adc2_initialized := false, g_adc1_handle := 100,
         g_adc2_handle := 0, g_adc_ref_count := 1, env := (),
         trace := [DriverCall.new_unit ADC_UNIT_1, DriverCall.config_channel 100 0 3 12,
                   DriverCall.cali_create_scheme ADC_UNIT_1 3 12] }) ∧
    ¬ (([9] : List Nat).getD 0 0 = 0) := by
  refine ⟨by decide, ?_, by decide⟩
  rfl

/-- C10 (amended): for valid arguments and successful allocations,
`usr_adc_init` returns `ESP_OK` if and only if every needed, not yet initialized
unit is created successfully, whatever channel configuration and calibration
creation return.  When it returns `ESP_OK`, it has made, after the unit
creations, one channel configuration call and one calibration creation call for
every entry of the list, in list order, and the calibration context recorded at
index `i` of the handle is what the creation call for entry `i` stored, absent
(`NULL`) if it stored nothing; so a creation that fails at index `i` without
storing a context is recorded as absent at index `i`. -/
theorem C10_channel_failures_tolerated {σ : Type} (d : Driver σ) (w : World σ)
    (cs : List usr_adc_channel_config_t) (n : Nat)
    (hn : n ≠ 0) (halloc : (alloc_handle d w.env).1 = true) :
    ((usr_adc_init d w (some cs) n true).1 = ESP_OK ↔
      ((selects_unit ADC_UNIT_1 (cs.take n) = true ∧ w.g_adc1_initialized = false →
          (d.adc_oneshot_new_unit (alloc_handle d w.env).2 ADC_UNIT_1).1 = ESP_OK) ∧
       (selects_unit ADC_UNIT_2 (cs.take n) = true ∧ w.g_adc2_initialized = false →
          (d.adc_oneshot_new_unit
            (if selects_unit ADC_UNIT_1 (cs.take n) = true ∧ w.g_adc1_initialized = false
             then (d.adc_oneshot_new_unit (alloc_handle d w.env).2 ADC_UNIT_1).2.2
             else (alloc_handle d w.env).2) ADC_UNIT_2).1 = ESP_OK))) ∧
    ((usr_adc_init d w (some cs) n true).1 = ESP_OK →
      ∃ h, (usr_adc_init d w (some cs) n true).2.1 = some h ∧
        (usr_adc_init d w (some cs) n true).2.2.trace =
          w.trace ++
            (if selects_unit ADC_UNIT_1 (cs.take n) = true ∧ w.g_adc1_initialized = false
             then [DriverCall.new_unit ADC_UNIT_1] else []) ++
            (if selects_unit ADC_UNIT_2 (cs.take n) = true ∧ w.g_adc2_initialized = false
             then [DriverCall.new_unit ADC_UNIT_2] else []) ++
            channel_calls (usr_adc_init d w (some cs) n true).2.2.g_adc1_handle
              (usr_adc_init d w (some cs) n true).2.2.g_adc2_handle (cs.take n) ∧
        h.cali_handles =
          (cali_answers d (usr_adc_init d w (some cs) n true).2.2.g_adc1_handle
            (usr_adc_init d w (some cs) n true).2.2.g_adc2_handle (cs.take n)
            (units_phase d w cs n).env).map (fun a => a.2.getD 0) ∧
        ∀ (i : Nat) (status : esp_err_t),
          (cali_answers d (usr_adc_init d w (some cs) n true).2.2.g_adc1_handle
            (usr_adc_init d w (some cs) n true).2.2.g_adc2_handle (cs.take n)
            (units_phase d w cs n).env)[i]? = some (status, none) →
          h.cali_handles[i]? = some 0) := by
  constructor
  · rw [usr_adc_init_status d w cs n hn halloc]
    by_cases hA : selects_unit ADC_UNIT_1 (cs.take n) = true ∧ w.g_adc1_initialized = false
    · by_cases hB : selects_unit ADC_UNIT_2 (cs.take n) = true ∧ w.g_adc2_initialized = false
      · by_cases h1 : (d.adc_oneshot_new_unit (alloc_handle d w.env).2 ADC_UNIT_1).1 = ESP_OK
        · simp [hA, hB, h1]
        · simp [hA, hB, h1]
      · by_cases h1 : (d.adc_oneshot_new_unit (alloc_handle d w.env).2 ADC_UNIT_1).1 = ESP_OK
        · simp [hA, hB, h1]
        · simp [hA, hB, h1]
    · simp [hA]
  · intro hok
    have he := usr_adc_init_ok_eq d w cs n true hok
    have hsp := config_channels_spec d (cs.take n) (units_phase d w cs n) [] 0
    have hg := config_channels_globals d (cs.take n) (units_phase d w cs n) [] 0
    have hcal : (config_channels d (cs.take n) (units_phase d w cs n) [] 0).2.1 =
        (cali_answers d (usr_adc_init d w (some cs) n true).2.2.g_adc1_handle
          (usr_adc_init d w (some cs) n true).2.2.g_adc2_handle (cs.take n)
          (units_phase d w cs n).env).map (fun a => a.2.getD 0) := by
      rw [hsp.2.1, he]
      simp [hg.2.2.1, hg.2.2.2.1]
    refine ⟨_, by rw [he], ?_, hcal, ?_⟩
    · rw [he]
      simp only [hsp.1, hg.2.2.1, hg.2.2.2.1, units_phase_trace]
    · intro i status hi
      simp only []
      rw [hcal, List.getElem?_map, hi]
      rfl

/-- Witness for C10: channel configuration and calibration creation fail for
both entries; the call still returns `ESP_OK`, all four calls were made, and
both contexts are recorded as absent. -/
theorem C10_channel_failures_tolerated_witness :
    ((2 : Nat) ≠ 0 ∧ (alloc_handle channelFailDriver (World.initial ()).env).1 = true) ∧
    (usr_adc_init channelFailDriver (World.initial ())
      (some [⟨ADC_UNIT_1, 0, 3, 12⟩, ⟨ADC_UNIT_1, 3, 3, 12⟩]) 2 true).1 = ESP_OK ∧
    (usr_adc_init channelFailDriver (World.initial ())
      (some [⟨ADC_UNIT_1, 0, 3, 12⟩, ⟨ADC_UNIT_1, 3, 3, 12⟩]) 2 true).2.2.trace =
      [DriverCall.new_unit ADC_UNIT_1,
       DriverCall.config_channel 100 0 3 12, DriverCall.cali_create_scheme ADC_UNIT_1 3 12,
       DriverCall.config_channel 100 3 3 12, DriverCall.cali_create_scheme ADC_UNIT_1 3 12] ∧
    (usr_adc_init channelFailDriver (World.initial ())
      (some [⟨ADC_UNIT_1, 0, 3, 12⟩, ⟨ADC_UNIT_1, 3, 3, 12⟩]) 2 true).2.1.map
        (fun h => h.cali_handles) = some [0, 0] :=
  have hiff := (C10_channel_failures_tolerated channelFailDriver (World.initial ())
    [⟨ADC_UNIT_1, 0, 3, 12⟩, ⟨ADC_UNIT_1, 3, 3, 12⟩] 2 (by decide) (by decide)).1
  ⟨⟨by decide, by decide⟩, hiff.mpr ⟨fun _ => rfl, fun _ => rfl⟩, rfl, rfl⟩

/-- C11: `usr_adc_init` with a `NULL` configuration pointer, a channel count of
zero or a `NULL` output pointer returns `ESP_ERR_INVALID_ARG`, stores no handle
and leaves the world as it was: counter, both flags, both stored unit handles,
platform state and driver call log (no driver call).  `usr_adc_deinit` with a
`NULL` handle does the same. -/
theorem C11_invalid_arguments_change_nothing {σ : Type} (d : Driver σ) (w : World σ)
    (cfgs : Option (List usr_adc_channel_config_t)) (n : Nat) (out : Bool)
    (hbad : cfgs = none ∨ n = 0 ∨ out = false) :
    usr_adc_init d w cfgs n out = (ESP_ERR_INVALID_ARG, none, w) ∧
    usr_adc_deinit d w none = (ESP_ERR_INVALID_ARG, w) := by
  refine ⟨?_, rfl⟩
  cases cfgs with
  | none => rfl
  | some cs =>
    have h : n = 0 ∨ out = false := by
      rcases hbad with h | h | h
      · exact absurd h (by simp)
      · exact Or.inl h
      · exact Or.inr h
    simp [usr_adc_init, h]

/-- Witness for C11: a non-empty array passed with channel count 0 while one
handle is live and ADC1 is initialized. -/
theorem C11_invalid_arguments_change_nothing_witness :
    usr_adc_init okDriver
      { g_adc1_initialized := true, g_adc2_initialized := false, g_adc1_handle := 100,
        g_adc2_handle := 0, g_adc_ref_count := 1, env := (), trace := [] }
      (some [⟨ADC_UNIT_1, 0, 3, 12⟩]) 0 true =
    (ESP_ERR_INVALID_ARG, none,
      { g_adc1_initialized := true, g_adc2_initialized := false, g_adc1_handle := 100,
        g_adc2_handle := 0, g_adc_ref_count := 1, env := (), trace := [] }) :=
  (C11_invalid_arguments_change_nothing okDriver
    { g_adc1_initialized := true, g_adc2_initialized := false, g_adc1_handle := 100,
      g_adc2_handle := 0, g_adc_ref_count := 1, env := (), trace := [] }
    (some [⟨ADC_UNIT_1, 0, 3, 12⟩]) 0 true (Or.inr (Or.inl rfl))).1

/-- C12 (as stated, refuted): the single entry has unit selector 5, neither
ADC1 (0) nor ADC2 (1).  The scan of lines 68-76 sets no flag, line 123 takes the
stored handle of ADC2 (`NULL`) for it, and `usr_adc_init` returns `ESP_OK`,
stores a handle and raises the counter to 1. -/
theorem C12_counterexample :
    ((5 : adc_unit_t) ≠ ADC_UNIT_1 ∧ (5 : adc_unit_t) ≠ ADC_UNIT_2) ∧
    usr_adc_init okDriver (World.initial ()) (some [⟨5, 0, 3, 12⟩]) 1 true =
      (ESP_OK,
       some { uses_adc1 := false, uses_adc2 := false, cali_handles := [7], cali_handle_num := 1,
              channel_configs := [⟨5, 0, 3, 12⟩], channel_num := 1 },
       { g_adc1_initialized := false, g_adc2_initialized := false, g_adc1_handle := 0,
         g_adc2_handle := 0, g_adc_ref_count := 1, env := (),
         trace := [DriverCall.config_channel 0 0 3 12, DriverCall.cali_create_scheme 5 3 12] }) ∧
    ¬ ((usr_adc_init okDriver (World.initial ()) (some [⟨5, 0, 3, 12⟩]) 1 true).1 =
        ESP_ERR_INVALID_ARG) := by
  refine ⟨by decide, rfl, by decide⟩

/-- C12 (amended): `usr_adc_init` rejects a `NULL` configuration pointer and a
channel count of zero with `ESP_ERR_INVALID_ARG`, storing no handle and leaving
the counter.  It does not examine the unit selectors of the entries: for
non-`NULL` pointers, a non-zero count and successful allocations, a list none of
whose entries selects ADC1 or ADC2 is accepted (`ESP_OK`, a handle that uses
neither unit, counter raised by one, no unit creation), and for any list the
status is `ESP_ERR_INVALID_ARG` only when a unit creation call returned it. -/
theorem C12_unit_selectors_not_validated {σ : Type} (d : Driver σ) (w : World σ)
    (cs : List usr_adc_channel_config_t) (n : Nat)
    (hn : n ≠ 0) (halloc : (alloc_handle d w.env).1 = true) :
    (∀ out : Bool,
      usr_adc_init d w none n out = (ESP_ERR_INVALID_ARG, none, w) ∧
      usr_adc_init d w (some cs) 0 out = (ESP_ERR_INVALID_ARG, none, w)) ∧
    ((∀ c ∈ cs.take n, c.unit ≠ ADC_UNIT_1 ∧ c.unit ≠ ADC_UNIT_2) →
      (usr_adc_init d w (some cs) n true).1 = ESP_OK ∧
      (∃ h, (usr_adc_init d w (some cs) n true).2.1 = some h ∧
        h.uses_adc1 = false ∧ h.uses_adc2 = false ∧ h.channel_configs = cs.take n) ∧
      (usr_adc_init d w (some cs) n true).2.2.g_adc_ref_count = w.g_adc_ref_count + 1 ∧
      new_unit_calls ADC_UNIT_1 (usr_adc_init d w (some cs) n true).2.2.trace =
        new_unit_calls ADC_UNIT_1 w.trace ∧
      new_unit_calls ADC_UNIT_2 (usr_adc_init d w (some cs) n true).2.2.trace =
        new_unit_calls ADC_UNIT_2 w.trace) ∧
    ((usr_adc_init d w (some cs) n true).1 = ESP_ERR_INVALID_ARG →
      (selects_unit ADC_UNIT_1 (cs.take n) = true ∧ w.g_adc1_initialized = false ∧
        (d.adc_oneshot_new_unit (alloc_handle d w.env).2 ADC_UNIT_1).1 = ESP_ERR_INVALID_ARG) ∨
      (selects_unit ADC_UNIT_2 (cs.take n) = true ∧ w.g_adc2_initialized = false ∧
        (d.adc_oneshot_new_unit
          (if selects_unit ADC_UNIT_1 (cs.take n) = true ∧ w.g_adc1_initialized = false
           then (d.adc_oneshot_new_unit (alloc_handle d w.env).2 ADC_UNIT_1).2.2
           else (alloc_handle d w.env).2) ADC_UNIT_2).1 = ESP_ERR_INVALID_ARG)) := by
  have hs := usr_adc_init_status d w cs n hn halloc
  have hcalls := usr_adc_init_creation_calls d w cs n hn halloc
  refine ⟨fun out => ⟨rfl, by simp [usr_adc_init]⟩, ?_, ?_⟩
  · intro hbad
    have h1 : selects_unit ADC_UNIT_1 (cs.take n) = false := by
      simp only [selects_unit, List.any_eq_false, decide_eq_true_eq]
      exact fun c hc => (hbad c hc).1
    have h2 : selects_unit ADC_UNIT_2 (cs.take n) = false := by
      simp only [selects_unit, List.any_eq_false, decide_eq_true_eq]
      exact fun c hc => (hbad c hc).2
    have hok : (usr_adc_init d w (some cs) n true).1 = ESP_OK := by
      rw [hs]; simp [h1, h2]
    obtain ⟨_, _, h, hh, hu1, hu2, hcfg, _⟩ := usr_adc_init_ok_units d w cs n true hok
    refine ⟨hok, ⟨h, hh, by rw [hu1, h1], by rw [hu2, h2], hcfg⟩, ?_, ?_, ?_⟩
    · rw [(usr_adc_init_ref_count d w (some cs) n true).2, if_pos hok]
    · rw [hcalls.1]; simp [h1]
    · rw [hcalls.2]; simp [h2]
  · intro hinv
    rw [hs] at hinv
    by_cases hA : selects_unit ADC_UNIT_1 (cs.take n) = true ∧ w.g_adc1_initialized = false
    · rw [if_pos hA] at hinv
      by_cases hf : (d.adc_oneshot_new_unit (alloc_handle d w.env).2 ADC_UNIT_1).1 ≠ ESP_OK
      · rw [if_pos hf] at hinv
        exact Or.inl ⟨hA.1, hA.2, hinv⟩
      · rw [if_neg hf] at hinv
        by_cases hB : selects_unit ADC_UNIT_2 (cs.take n) = true ∧ w.g_adc2_initialized = false
        · rw [if_pos hB] at hinv
          exact Or.inr ⟨hB.1, hB.2, by rw [if_pos hA]; exact hinv⟩
        · rw [if_neg hB] at hinv
          exact absurd hinv.symm esp_ok_ne_invalid_arg
    · rw [if_neg hA] at hinv
      by_cases hB : selects_unit ADC_UNIT_2 (cs.take n) = true ∧ w.g_adc2_initialized = false
      · rw [if_pos hB] at hinv
        exact Or.inr ⟨hB.1, hB.2, by rw [if_neg hA]; exact hinv⟩
      · rw [if_neg hB] at hinv
        exact absurd hinv.symm esp_ok_ne_invalid_arg

/-- Witness for C12: a list of two entries with selectors 5 and 7 is accepted. -/
theorem C12_unit_selectors_not_validated_witness :
    ((2 : Nat) ≠ 0 ∧ (alloc_handle okDriver (World.initial ()).env).1 = true) ∧
    (usr_adc_init okDriver (World.initial ())
      (some [⟨5, 0, 3, 12⟩, ⟨7, 1, 3, 12⟩]) 2 true).1 = ESP_OK ∧
    (usr_adc_init okDriver (World.initial ())
      (some [⟨5, 0, 3, 12⟩, ⟨7, 1, 3, 12⟩]) 2 true).2.2.g_adc_ref_count = 1 :=
  have h := (C12_unit_selectors_not_validated okDriver (World.initial ())
    [⟨5, 0, 3, 12⟩, ⟨7, 1, 3, 12⟩] 2 (by decide) (by decide)).2.1 (by decide)
  ⟨⟨by decide, by decide⟩, h.1, h.2.2.1⟩

/-- C13: for every driver, state, handle, unit selector, channel and output
pointer, `usr_adc_read_raw` returns what the reference definition
`read_raw_reference` returns: status, stored sample and resulting world.  The
`NULL` check comes first: with a `NULL` handle or output the result is
`ESP_ERR_INVALID_ARG` whatever the unit selector. -/
theorem C13_read_raw_refines_reference {σ : Type} (d : Driver σ) (w : World σ)
    (handle : Option usr_adc_handle_s) (unit : adc_unit_t) (channel : Int) (out : Bool) :
    usr_adc_read_raw d w handle unit channel out =
      read_raw_reference d w handle unit channel out ∧
    usr_adc_read_raw d w none unit channel out = (ESP_ERR_INVALID_ARG, none, w) ∧
    usr_adc_read_raw d w handle unit channel false = (ESP_ERR_INVALID_ARG, none, w) := by
  have h21 : ¬ ADC_UNIT_2 = ADC_UNIT_1 := by decide
  refine ⟨?_, rfl, ?_⟩
  · cases handle with
    | none => cases out <;> rfl
    | some h =>
      cases out with
      | false => simp [usr_adc_read_raw, read_raw_reference]
      | true =>
        by_cases h1 : unit = ADC_UNIT_1
        · subst h1
          cases hi : w.g_adc1_initialized <;> cases hu : h.uses_adc1 <;>
            simp [usr_adc_read_raw, read_raw_reference, resolve_unit, hi, hu]
        · by_cases h2 : unit = ADC_UNIT_2
          · subst h2
            cases hi : w.g_adc2_initialized <;> cases hu : h.uses_adc2 <;>
              simp [usr_adc_read_raw, read_raw_reference, resolve_unit, hi, hu, h21]
          · simp [usr_adc_read_raw, read_raw_reference, resolve_unit, h1, h2]
  · cases handle with
    | none => rfl
    | some h => simp [usr_adc_read_raw]

/-- C14: suppose the raw read succeeds with sample `r`, the entry at index `i`
of the handle's configuration list matches `(unit, channel)` and no earlier
entry does.  If the calibration context at index `i` is present (not `NULL`),
`usr_adc_read_voltage` makes one raw-to-voltage conversion of `r` with that
context and returns exactly its status and stored voltage, whatever later
entries match and whatever their contexts are. -/
theorem C14_read_voltage_uses_first_match {σ : Type} (d : Driver σ) (w : World σ)
    (h : usr_adc_handle_s) (unit : adc_unit_t) (channel : Int) (raw_value : Int)
    (r : Int) (w1 : World σ)
    (hraw : usr_adc_read_raw d w (some h) unit channel true = (ESP_OK, some r, w1))
    (i : Nat) (c : usr_adc_channel_config_t)
    (hi : (h.channel_configs.take h.channel_num)[i]? = some c)
    (hm : c.unit = unit ∧ c.channel = channel)
    (hfirst : ∀ j c', j < i → (h.channel_configs.take h.channel_num)[j]? = some c' →
      ¬ (c'.unit = unit ∧ c'.channel = channel))
    (hctx : h.cali_handles.getD i 0 ≠ 0) :
    usr_adc_read_voltage d w (some h) unit channel true raw_value =
      ((d.adc_cali_raw_to_voltage w1.env (h.cali_handles.getD i 0) r).1,
       (d.adc_cali_raw_to_voltage w1.env (h.cali_handles.getD i 0) r).2.1,
       { w1 with
         env := (d.adc_cali_raw_to_voltage w1.env (h.cali_handles.getD i 0) r).2.2
         trace := w1.trace ++ [DriverCall.raw_to_voltage (h.cali_handles.getD i 0) r] }) := by
  have hfind := find_cali_handle_first_match h.cali_handles unit channel
    (h.channel_configs.take h.channel_num) 0 i c hi hm hfirst
  rw [Nat.zero_add] at hfind
  have hok : (usr_adc_read_raw d w (some h) unit channel true).1 = ESP_OK := by rw [hraw]
  rw [usr_adc_read_voltage_of_read_ok d w h unit channel raw_value hok, hfind, if_neg hctx,
    hraw]
  rfl

/-- Witness for C14: two entries match (unit 1, channel 0), with contexts 7 and
8; the conversion is made with 7, the context of the first. -/
theorem C14_read_voltage_uses_first_match_witness :
    usr_adc_read_voltage okDriver
      { g_adc1_initialized := true, g_adc2_initialized := false, g_adc1_handle := 100,
        g_adc2_handle := 0, g_adc_ref_count := 1, env := (), trace := [] }
      (some { uses_adc1 := true, uses_adc2 := false, cali_handles := [7, 8],
              cali_handle_num := 2,
              channel_configs := [⟨ADC_UNIT_1, 0, 3, 12⟩, ⟨ADC_UNIT_1, 0, 0, 12⟩],
              channel_num := 2 })
      ADC_UNIT_1 0 true 0 =
    (ESP_OK, some 2468,
      { g_adc1_initialized := true, g_adc2_initialized := false, g_adc1_handle := 100,
        g_adc2_handle := 0, g_adc_ref_count := 1, env := (),
        trace := [DriverCall.read 100 0, DriverCall.raw_to_voltage 7 1234] }) :=
  C14_read_voltage_uses_first_match okDriver
    { g_adc1_initialized := true, g_adc2_initialized := false, g_adc1_handle := 100,
      g_adc2_handle := 0, g_adc_ref_count := 1, env := (), trace := [] }
    { uses_adc1 := true, uses_adc2 := false, cali_handles := [7, 8], cali_handle_num := 2,
      channel_configs := [⟨ADC_UNIT_1, 0, 3, 12⟩, ⟨ADC_UNIT_1, 0, 0, 12⟩], channel_num := 2 }
    ADC_UNIT_1 0 0 1234
    { g_adc1_initialized := true, g_adc2_initialized := false, g_adc1_handle := 100,
      g_adc2_handle := 0, g_adc_ref_count := 1, env := (), trace := [DriverCall.read 100 0] }
    rfl 0 ⟨ADC_UNIT_1, 0, 3, 12⟩ rfl ⟨rfl, rfl⟩
    (fun j _ hj => absurd hj (Nat.not_lt_zero j)) (by decide)

/-- C15: assume the driver's unit creation stores a non-`NULL` handle whenever
it reports `ESP_OK` and stores nothing whenever it reports a failure.  Then in
every state reached from the initial state by `usr_adc_init` calls and
`usr_adc_deinit` calls on live handles, each unit's initialized flag is true if
and only if its stored driver handle is not `NULL`. -/
theorem C15_flag_iff_handle_nonnull {σ : Type} (d : Driver σ) (env : σ) (ops : List Op)
    (hd : UnitCreationContract d) :
    ((run d (Sys.initial env) ops).w.g_adc1_initialized = true ↔
      (run d (Sys.initial env) ops).w.g_adc1_handle ≠ 0) ∧
    ((run d (Sys.initial env) ops).w.g_adc2_initialized = true ↔
      (run d (Sys.initial env) ops).w.g_adc2_handle ≠ 0) :=
  run_preserves d (fun s => FlagsMatchHandles s.w)
    (fun s op h => step_flags_match d hd s op h) (Sys.initial env) ops
    (by simp [FlagsMatchHandles, Sys.initial, World.initial])

/-- Witness for C15: the always-succeeding platform meets the creation contract
(it stores handle 100 or 101); after two acquisitions on ADC1 and ADC2 and the
release of the first handle, both units have flag true and a non-`NULL` handle. -/
theorem C15_flag_iff_handle_nonnull_witness :
    UnitCreationContract okDriver ∧
    (((run okDriver (Sys.initial ()) (two_consumers_ops.take 3)).w.g_adc1_initialized = true ↔
      (run okDriver (Sys.initial ()) (two_consumers_ops.take 3)).w.g_adc1_handle ≠ 0) ∧
     ((run okDriver (Sys.initial ()) (two_consumers_ops.take 3)).w.g_adc2_initialized = true ↔
      (run okDriver (Sys.initial ()) (two_consumers_ops.take 3)).w.g_adc2_handle ≠ 0)) :=
  have hd : UnitCreationContract okDriver := fun _ u =>
    ⟨fun _ => ⟨100 + u.toNat, rfl, by omega⟩, fun h => absurd rfl h⟩
  ⟨hd, C15_flag_iff_handle_nonnull okDriver () (two_consumers_ops.take 3) hd⟩

/-- C16: let `h` be the handle stored by a successful `usr_adc_init` on a list
of exactly `n` configurations, `n` at most 255 (a successful call has `n` at
least 1).  Then the calibration-context count of `h` is `n`, hence not above its
channel count, which is `n` too; its configuration list is the supplied list, in
order; it holds `n` calibration contexts; and `usr_adc_deinit` on `h`, in any
state, calls the calibration teardown once for each non-`NULL` context of `h`,
in order, and for nothing else. -/
theorem C16_handle_counts_and_cali_teardown {σ : Type} (d : Driver σ) (w : World σ)
    (cs : List usr_adc_channel_config_t) (n : Nat) (out : Bool) (h : usr_adc_handle_s)
    (hlen : cs.length = n) (h255 : n ≤ 255)
    (hh : (usr_adc_init d w (some cs) n out).2.1 = some h) :
    1 ≤ n ∧
    h.cali_handle_num = n ∧ h.channel_num = n ∧ h.cali_handle_num ≤ h.channel_num ∧
    h.channel_configs = cs ∧ h.cali_handles.length = n ∧
    ∀ w2 : World σ,
      cali_delete_log (usr_adc_deinit d w2 (some h)).2.trace =
        cali_delete_log w2.trace ++ h.cali_handles.filter (fun c => decide (c ≠ 0)) := by
  have hok : (usr_adc_init d w (some cs) n out).1 = ESP_OK :=
    (usr_adc_init_ref_count d w (some cs) n out).1.mpr (by simp [hh])
  have hn := (usr_adc_init_ok_valid d w (some cs) n out hok).2.1
  obtain ⟨hnum, hch, hcfg, hcl⟩ := usr_adc_init_handle_shape d w cs n out h hlen h255 hh
  refine ⟨Nat.one_le_iff_ne_zero.mpr hn, hnum, hch, by rw [hnum, hch], hcfg, hcl, ?_⟩
  intro w2
  rw [usr_adc_deinit_cali_delete_log, hnum, ← hcl, List.take_length]

/-- Witness for C16: two channels on a platform whose calibration creation
stores nothing; the handle counts 2 contexts, both absent, and its release
calls no calibration teardown. -/
theorem C16_handle_counts_and_cali_teardown_witness :
    (usr_adc_init channelFailDriver (World.initial ())
      (some [⟨ADC_UNIT_1, 0, 3, 12⟩, ⟨ADC_UNIT_1, 3, 3, 12⟩]) 2 true).2.1 =
      some { uses_adc1 := true, uses_adc2 := false, cali_handles := [0, 0],
             cali_handle_num := 2,
             channel_configs := [⟨ADC_UNIT_1, 0, 3, 12⟩, ⟨ADC_UNIT_1, 3, 3, 12⟩],
             channel_num := 2 } ∧
    cali_delete_log (usr_adc_deinit channelFailDriver (World.initial ())
      (some { uses_adc1 := true, uses_adc2 := false, cali_handles := [0, 0],
              cali_handle_num := 2,
              channel_configs := [⟨ADC_UNIT_1, 0, 3, 12⟩, ⟨ADC_UNIT_1, 3, 3, 12⟩],
              channel_num := 2 })).2.trace = [] :=
  ⟨rfl,
   (C16_handle_counts_and_cali_teardown channelFailDriver (World.initial ())
      [⟨ADC_UNIT_1, 0, 3, 12⟩, ⟨ADC_UNIT_1, 3, 3, 12⟩] 2 true
      { uses_adc1 := true, uses_adc2 := false, cali_handles := [0, 0], cali_handle_num := 2,
        channel_configs := [⟨ADC_UNIT_1, 0, 3, 12⟩, ⟨ADC_UNIT_1, 3, 3, 12⟩], channel_num := 2 }
      rfl (by decide) rfl).2.2.2.2.2.2 (World.initial ())⟩

/-- C17 (as stated, refuted): on a platform whose single-sample read reports
`ESP_ERR_INVALID_STATE`, a handle is acquired for (unit 1, channel 0); it is
live, it uses ADC1 and ADC1 is initialized, and `usr_adc_read_raw` on it for
ADC1 returns `ESP_ERR_INVALID_STATE`, the status of the driver read at
line 186. -/
theorem C17_counterexample :
    (run readInvalidStateDriver (Sys.initial ())
        [Op.init (some [⟨ADC_UNIT_1, 0, 3, 12⟩]) 1 true]).live =
      [{ uses_adc1 := true, uses_adc2 := false, cali_handles := [7], cali_handle_num := 1,
         channel_configs := [⟨ADC_UNIT_1, 0, 3, 12⟩], channel_num := 1 }] ∧
    (run readInvalidStateDriver (Sys.initial ())
        [Op.init (some [⟨ADC_UNIT_1, 0, 3, 12⟩]) 1 true]).w.g_adc1_initialized = true ∧
    (usr_adc_read_raw readInvalidStateDriver
        (run readInvalidStateDriver (Sys.initial ())
          [Op.init (some [⟨ADC_UNIT_1, 0, 3, 12⟩]) 1 true]).w
        (some { uses_adc1 := true, uses_adc2 := false, cali_handles := [7],
                cali_handle_num := 1,
                channel_configs := [⟨ADC_UNIT_1, 0, 3, 12⟩], channel_num := 1 })
        ADC_UNIT_1 0 true).1 = ESP_ERR_INVALID_STATE := by
  decide

/-- C17 (amended): in every state reached from the initial state by
`usr_adc_init` calls and `usr_adc_deinit` calls on live handles, the units used
by every live handle are marked initialized.  Hence `usr_adc_read_raw` on a live
handle, with a non-`NULL` output, for a unit the handle uses passes the state
check: it makes one driver read on the stored handle of that unit and returns
exactly the status and sample of that read, so its status is
`ESP_ERR_INVALID_STATE` only if the driver read reports it. -/
theorem C17_live_handle_units_initialized {σ : Type} (d : Driver σ) (env : σ)
    (ops : List Op) (i : Nat) (h : usr_adc_handle_s)
    (hlive : (run d (Sys.initial env) ops).live[i]? = some h) :
    (h.uses_adc1 = true → (run d (Sys.initial env) ops).w.g_adc1_initialized = true) ∧
    (h.uses_adc2 = true → (run d (Sys.initial env) ops).w.g_adc2_initialized = true) ∧
    (∀ channel : Int,
      (h.uses_adc1 = true →
        usr_adc_read_raw d (run d (Sys.initial env) ops).w (some h) ADC_UNIT_1 channel true =
          ((d.adc_oneshot_read (run d (Sys.initial env) ops).w.env
              (run d (Sys.initial env) ops).w.g_adc1_handle channel).1,
           (d.adc_oneshot_read (run d (Sys.initial env) ops).w.env
              (run d (Sys.initial env) ops).w.g_adc1_handle channel).2.1,
           { (run d (Sys.initial env) ops).w with
             env := (d.adc_oneshot_read (run d (Sys.initial env) ops).w.env
                (run d (Sys.initial env) ops).w.g_adc1_handle channel).2.2
             trace := (run d (Sys.initial env) ops).w.trace ++
                [DriverCall.read (run d (Sys.initial env) ops).w.g_adc1_handle channel] })) ∧
      (h.uses_adc2 = true →
        usr_adc_read_raw d (run d (Sys.initial env) ops).w (some h) ADC_UNIT_2 channel true =
          ((d.adc_oneshot_read (run d (Sys.initial env) ops).w.env
              (run d (Sys.initial env) ops).w.g_adc2_handle channel).1,
           (d.adc_oneshot_read (run d (Sys.initial env) ops).w.env
              (run d (Sys.initial env) ops).w.g_adc2_handle channel).2.1,
           { (run d (Sys.initial env) ops).w with
             env := (d.adc_oneshot_read (run d (Sys.initial env) ops).w.env
                (run d (Sys.initial env) ops).w.g_adc2_handle channel).2.2
             trace := (run d (Sys.initial env) ops).w.trace ++
                [DriverCall.read (run d (Sys.initial env) ops).w.g_adc2_handle channel] }))) := by
  have hinv := run_live_units d env ops
  have hused := hinv.2 h (List.getElem?_mem hlive)
  have h21 : ¬ ADC_UNIT_2 = ADC_UNIT_1 := by decide
  refine ⟨hused.1, hused.2, fun channel => ⟨?_, ?_⟩⟩
  · intro h1
    simp [usr_adc_read_raw, h1, hused.1 h1]
  · intro h2
    simp [usr_adc_read_raw, h2, hused.2 h2, h21]

/-- Witness for C17: after the first of two consumers has released its ADC1
handle, the remaining live handle uses ADC2, ADC2 is initialized and the raw
read through it returns the driver's sample 1234. -/
theorem C17_live_handle_units_initialized_witness :
    ((run okDriver (Sys.initial ()) (two_consumers_ops.take 3)).live[0]? =
      some { uses_adc1 := false, uses_adc2 := true, cali_handles := [7], cali_handle_num := 1,
             channel_configs := [⟨ADC_UNIT_2, 0, 3, 12⟩], channel_num := 1 }) ∧
    (run okDriver (Sys.initial ()) (two_consumers_ops.take 3)).w.g_adc2_initialized = true :=
  ⟨by decide,
   (C17_live_handle_units_initialized okDriver () (two_consumers_ops.take 3) 0
      { uses_adc1 := false, uses_adc2 := true, cali_handles := [7], cali_handle_num := 1,
        channel_configs := [⟨ADC_UNIT_2, 0, 3, 12⟩], channel_num := 1 }
      (by decide)).2.1 rfl⟩

/-- C18: `usr_adc_deinit` leaves alone a unit the released handle does not use.
If `uses_adc1` is false, ADC1 keeps its initialized flag and stored driver
handle whatever value the counter reaches, and the only unit destruction the
call can make is the one of ADC2 (with the stored handle of ADC2, when the
counter reaches zero and ADC2 is initialized and used); likewise for ADC2 when
`uses_adc2` is false. -/
theorem C18_deinit_keeps_unused_unit {σ : Type} (d : Driver σ) (w : World σ)
    (h : usr_adc_handle_s) :
    (h.uses_adc1 = false →
      (usr_adc_deinit d w (some h)).2.g_adc1_initialized = w.g_adc1_initialized ∧
      (usr_adc_deinit d w (some h)).2.g_adc1_handle = w.g_adc1_handle ∧
      del_unit_log (usr_adc_deinit d w (some h)).2.trace =
        del_unit_log w.trace ++
          (if w.g_adc_ref_count - 1 = 0 ∧ w.g_adc2_initialized = true ∧ h.uses_adc2 = true
           then [w.g_adc2_handle] else [])) ∧
    (h.uses_adc2 = false →
      (usr_adc_deinit d w (some h)).2.g_adc2_initialized = w.g_adc2_initialized ∧
      (usr_adc_deinit d w (some h)).2.g_adc2_handle = w.g_adc2_handle ∧
      del_unit_log (usr_adc_deinit d w (some h)).2.trace =
        del_unit_log w.trace ++
          (if w.g_adc_ref_count - 1 = 0 ∧ w.g_adc1_initialized = true ∧ h.uses_adc1 = true
           then [w.g_adc1_handle] else [])) := by
  have hu := usr_adc_deinit_units d w h
  constructor
  · intro h1
    rw [hu.1, hu.2.1, hu.2.2.2.2]
    simp [h1]
  · intro h2
    rw [hu.2.2.1, hu.2.2.2.1, hu.2.2.2.2]
    simp [h2]

/-- Witness for C18: the last handle, which uses ADC2 only, is released while
both units are initialized; ADC1 keeps flag and handle 100, and the only
destruction is the one of ADC2 (handle 101). -/
theorem C18_deinit_keeps_unused_unit_witness :
    (usr_adc_deinit okDriver
      { g_adc1_initialized := true, g_adc2_initialized := true, g_adc1_handle := 100,
        g_adc2_handle := 101, g_adc_ref_count := 1, env := (), trace := [] }
      (some { uses_adc1 := false, uses_adc2 := true, cali_handles := [7], cali_handle_num := 1,
              channel_configs := [⟨ADC_UNIT_2, 0, 3, 12⟩],
              channel_num := 1 })).2.g_adc1_initialized = true ∧
    (usr_adc_deinit okDriver
      { g_adc1_initialized := true, g_adc2_initialized := true, g_adc1_handle := 100,
        g_adc2_handle := 101, g_adc_ref_count := 1, env := (), trace := [] }
      (some { uses_adc1 := false, uses_adc2 := true, cali_handles := [7], cali_handle_num := 1,
              channel_configs := [⟨ADC_UNIT_2, 0, 3, 12⟩],
              channel_num := 1 })).2.g_adc1_handle = 100 ∧
    del_unit_log (usr_adc_deinit okDriver
      { g_adc1_initialized := true, g_adc2_initialized := true, g_adc1_handle := 100,
        g_adc2_handle := 101, g_adc_ref_count := 1, env := (), trace := [] }
      (some { uses_adc1 := false, uses_adc2 := true, cali_handles := [7], cali_handle_num := 1,
              channel_configs := [⟨ADC_UNIT_2, 0, 3, 12⟩],
              channel_num := 1 })).2.trace = [101] :=
  (C18_deinit_keeps_unused_unit okDriver
    { g_adc1_initialized := true, g_adc2_initialized := true, g_adc1_handle := 100,
      g_adc2_handle := 101, g_adc_ref_count := 1, env := (), trace := [] }
    { uses_adc1 := false, uses_adc2 := true, cali_handles := [7], cali_handle_num := 1,
      channel_configs := [⟨ADC_UNIT_2, 0, 3, 12⟩], channel_num := 1 }).1 rfl

/-- C19: `usr_adc_read_raw` and `usr_adc_read_voltage` do not change the
module's state.  For every driver, state, handle memory, handle pointer, unit
selector, channel, output pointer and driver answer, whether the call succeeds
or fails: the usage counter, both initialized flags and both stored unit
handles are the same after the call as before; the handle memory after the call
is the handle memory before it, so the object the handle points to keeps its
unit-usage flags, configuration list, calibration contexts and both counts; and
the pointer forms return the status, output and world that the functions return
for the object the pointer denotes. -/
theorem C19_reads_keep_module_state {σ : Type} (d : Driver σ) (w : World σ)
    (handle : Option usr_adc_handle_s) (unit : adc_unit_t) (channel : Int) (out : Bool)
    (raw_value : Int) (mem : HandleMemory) (ptr : Nat) :
    ((usr_adc_read_raw d w handle unit channel out).2.2.g_adc_ref_count = w.g_adc_ref_count ∧
     (usr_adc_read_raw d w handle unit channel out).2.2.g_adc1_initialized =
        w.g_adc1_initialized ∧
     (usr_adc_read_raw d w handle unit channel out).2.2.g_adc2_initialized =
        w.g_adc2_initialized ∧
     (usr_adc_read_raw d w handle unit channel out).2.2.g_adc1_handle = w.g_adc1_handle ∧
     (usr_adc_read_raw d w handle unit channel out).2.2.g_adc2_handle = w.g_adc2_handle) ∧
    ((usr_adc_read_voltage d w handle unit channel out raw_value).2.2.g_adc_ref_count =
        w.g_adc_ref_count ∧
     (usr_adc_read_voltage d w handle unit channel out raw_value).2.2.g_adc1_initialized =
        w.g_adc1_initialized ∧
     (usr_adc_read_voltage d w handle unit channel out raw_value).2.2.g_adc2_initialized =
        w.g_adc2_initialized ∧
     (usr_adc_read_voltage d w handle unit channel out raw_value).2.2.g_adc1_handle =
        w.g_adc1_handle ∧
     (usr_adc_read_voltage d w handle unit channel out raw_value).2.2.g_adc2_handle =
        w.g_adc2_handle) ∧
    ((usr_adc_read_raw_mem d w mem ptr unit channel out).2.2.2 = mem ∧
     ((usr_adc_read_raw_mem d w mem ptr unit channel out).2.2.2 ptr).uses_adc1 =
        (mem ptr).uses_adc1 ∧
     ((usr_adc_read_raw_mem d w mem ptr unit channel out).2.2.2 ptr).uses_adc2 =
        (mem ptr).uses_adc2 ∧
     ((usr_adc_read_raw_mem d w mem ptr unit channel out).2.2.2 ptr).channel_configs =
        (mem ptr).channel_configs ∧
     ((usr_adc_read_raw_mem d w mem ptr unit channel out).2.2.2 ptr).cali_handles =
        (mem ptr).cali_handles ∧
     ((usr_adc_read_raw_mem d w mem ptr unit channel out).2.2.2 ptr).cali_handle_num =
        (mem ptr).cali_handle_num ∧
     ((usr_adc_read_raw_mem d w mem ptr unit channel out).2.2.2 ptr).channel_num =
        (mem ptr).channel_num ∧
     (usr_adc_read_raw_mem d w mem ptr unit channel out).2.2.1.g_adc_ref_count =
        w.g_adc_ref_count ∧
     (usr_adc_read_raw_mem d w mem ptr unit channel out).2.2.1.g_adc1_initialized =
        w.g_adc1_initialized ∧
     (usr_adc_read_raw_mem d w mem ptr unit channel out).2.2.1.g_adc2_initialized =
        w.g_adc2_initialized ∧
     (usr_adc_read_raw_mem d w mem ptr unit channel out).2.2.1.g_adc1_handle =
        w.g_adc1_handle ∧
     (usr_adc_read_raw_mem d w mem ptr unit channel out).2.2.1.g_adc2_handle =
        w.g_adc2_handle ∧
     (usr_adc_read_raw_mem d w mem ptr unit channel out).1 =
        (usr_adc_read_raw d w (deref_handle mem ptr) unit channel out).1 ∧
     (usr_adc_read_raw_mem d w mem ptr unit channel out).2.1 =
        (usr_adc_read_raw d w (deref_handle mem ptr) unit channel out).2.1 ∧
     (usr_adc_read_raw_mem d w mem ptr unit channel out).2.2.1 =
        (usr_adc_read_raw d w (deref_handle mem ptr) unit channel out).2.2) ∧
    ((usr_adc_read_voltage_mem d w mem ptr unit channel out raw_value).2.2.2 = mem ∧
     ((usr_adc_read_voltage_mem d w mem ptr unit channel out raw_value).2.2.2 ptr).uses_adc1 =
        (mem ptr).uses_adc1 ∧
     ((usr_adc_read_voltage_mem d w mem ptr unit channel out raw_value).2.2.2 ptr).uses_adc2 =
        (mem ptr).uses_adc2 ∧
     ((usr_adc_read_voltage_mem d w mem ptr unit channel out
          raw_value).2.2.2 ptr).channel_configs = (mem ptr).channel_configs ∧
     ((usr_adc_read_voltage_mem d w mem ptr unit channel out
          raw_value).2.2.2 ptr).cali_handles = (mem ptr).cali_handles ∧
     ((usr_adc_read_voltage_mem d w mem ptr unit channel out
          raw_value).2.2.2 ptr).cali_handle_num = (mem ptr).cali_handle_num ∧
     ((usr_adc_read_voltage_mem d w mem ptr unit channel out
          raw_value).2.2.2 ptr).channel_num = (mem ptr).channel_num ∧
     (usr_adc_read_voltage_mem d w mem ptr unit channel out raw_value).2.2.1.g_adc_ref_count =
        w.g_adc_ref_count ∧
     (usr_adc_read_voltage_mem d w mem ptr unit channel out
          raw_value).2.2.1.g_adc1_initialized = w.g_adc1_initialized ∧
     (usr_adc_read_voltage_mem d w mem ptr unit channel out
          raw_value).2.2.1.g_adc2_initialized = w.g_adc2_initialized ∧
     (usr_adc_read_voltage_mem d w mem ptr unit channel out raw_value).2.2.1.g_adc1_handle =
        w.g_adc1_handle ∧
     (usr_adc_read_voltage_mem d w mem ptr unit channel out raw_value).2.2.1.g_adc2_handle =
        w.g_adc2_handle ∧
     (usr_adc_read_voltage_mem d w mem ptr unit channel out raw_value).1 =
        (usr_adc_read_voltage d w (deref_handle mem ptr) unit channel out raw_value).1 ∧
     (usr_adc_read_voltage_mem d w mem ptr unit channel out raw_value).2.1 =
        (usr_adc_read_voltage d w (deref_handle mem ptr) unit channel out raw_value).2.1 ∧
     (usr_adc_read_voltage_mem d w mem ptr unit channel out raw_value).2.2.1 =
        (usr_adc_read_voltage d w (deref_handle mem ptr) unit channel out raw_value).2.2) := by
  have hraw : ∀ (hd : Option usr_adc_handle_s) (o : Bool),
      (usr_adc_read_raw d w hd unit channel o).2.2.g_adc_ref_count = w.g_adc_ref_count ∧
      (usr_adc_read_raw d w hd unit channel o).2.2.g_adc1_initialized = w.g_adc1_initialized ∧
      (usr_adc_read_raw d w hd unit channel o).2.2.g_adc2_initialized = w.g_adc2_initialized ∧
      (usr_adc_read_raw d w hd unit channel o).2.2.g_adc1_handle = w.g_adc1_handle ∧
      (usr_adc_read_raw d w hd unit channel o).2.2.g_adc2_handle = w.g_adc2_handle := by
    intro hd o
    cases hd with
    | none => exact ⟨rfl, rfl, rfl, rfl, rfl⟩
    | some h =>
      simp only [usr_adc_read_raw]
      split_ifs <;> exact ⟨rfl, rfl, rfl, rfl, rfl⟩
  have hvolt : ∀ (hd : Option usr_adc_handle_s),
      (usr_adc_read_voltage d w hd unit channel out raw_value).2.2.g_adc_ref_count =
        w.g_adc_ref_count ∧
      (usr_adc_read_voltage d w hd unit channel out raw_value).2.2.g_adc1_initialized =
        w.g_adc1_initialized ∧
      (usr_adc_read_voltage d w hd unit channel out raw_value).2.2.g_adc2_initialized =
        w.g_adc2_initialized ∧
      (usr_adc_read_voltage d w hd unit channel out raw_value).2.2.g_adc1_handle =
        w.g_adc1_handle ∧
      (usr_adc_read_voltage d w hd unit channel out raw_value).2.2.g_adc2_handle =
        w.g_adc2_handle := by
    intro hd
    cases hd with
    | none => exact ⟨rfl, rfl, rfl, rfl, rfl⟩
    | some h =>
      have hr := hraw (some h) true
      simp only [usr_adc_read_voltage]
      split_ifs
      · exact ⟨rfl, rfl, rfl, rfl, rfl⟩
      · exact hr
      · exact hr
      · exact hr
  have hrm := usr_adc_read_raw_mem_eq d w mem ptr unit channel out
  have hvm := usr_adc_read_voltage_mem_eq d w mem ptr unit channel out raw_value
  have hr := hraw (deref_handle mem ptr) out
  have hv := hvolt (deref_handle mem ptr)
  refine ⟨hraw handle out, hvolt handle, ?_, ?_⟩
  · rw [hrm]
    exact ⟨rfl, rfl, rfl, rfl, rfl, rfl, rfl, hr.1, hr.2.1, hr.2.2.1, hr.2.2.2.1, hr.2.2.2.2,
      rfl, rfl, rfl⟩
  · rw [hvm]
    exact ⟨rfl, rfl, rfl, rfl, rfl, rfl, rfl, hv.1, hv.2.1, hv.2.2.1, hv.2.2.2.1, hv.2.2.2.2,
      rfl, rfl, rfl⟩

end UsrAdc
